import Mathlib

/-!
Shallow embedding of the Wireless_espnow_lib RDT transport and its
request/response services, translated from the C sources
(`w_main.c`, `w_param.c`, `w_files.c`, `w_connect.c`), together with
theorems settling the specification claims.

Conventions of the embedding:
* machine bytes are `Nat` values below 256; `uint32_t` arithmetic is
  taken modulo `2 ^ 32` where the C code can overflow;
* C pointers that may be `NULL` become `Option`; a heap buffer is the
  list of bytes it holds;
* every call to `free` is recorded in an explicit `HeapFree` log so that
  buffer-lifetime claims can be stated;
* time (`esp_timer_get_time`, microseconds) is an `Int` passed in
  explicitly;
* the CRC-32 routine (`esp_crc32_le`, an external library call) is a
  parameter `crcF` of the packet functions: the sender stamps
  `crcF` of the packet fields and the receiver recomputes it, exactly
  as the C code does.
-/

namespace WirelessEspnow

/-! ## Small helpers -/

/-- Modulus of 32-bit machine arithmetic. -/
def U32 : Nat := 4294967296

/-- Addition of `uint32_t` counters (`+=` in C). -/
def addU32 (a b : Nat) : Nat := (a + b) % U32

/-- Subtraction of 32-bit `size_t` values, `(a - b) mod 2^32` as C computes it. -/
def sub32 (a b : Nat) : Nat := (a + U32 - b % U32) % U32

/-- Overwrite `src.length` bytes of `dst` starting at `off` (the effect of
`memcpy(dst + off, src, src.length)` when the write is in bounds). -/
def listWrite (dst : List Nat) (off : Nat) (src : List Nat) : List Nat :=
  dst.take off ++ src ++ dst.drop (off + src.length)

/-! ## Packet codec (w_main.c) -/

/-- `RDT_PACKET_PAYLOAD_LEN` from w_main.c. -/
def RDT_PACKET_PAYLOAD_LEN : Nat := 192

/-- `RDT_ACK_TIMEOUT_MS` from w_main.c. -/
def RDT_ACK_TIMEOUT_MS : Nat := 100

/-- `RDT_MAX_RETRY_COUNT` from w_main.c. -/
def RDT_MAX_RETRY_COUNT : Nat := 5

/-- `RDT_MAX_CHANNELS` from w_main.h. -/
def RDT_MAX_CHANNELS : Nat := 4

/-- Service codes of `rdt_service_code_t`. -/
def RDT_MSG_BEGIN : Nat := 1

def RDT_MSG_DATA : Nat := 2

def RDT_MSG_END : Nat := 3

def RDT_MSG_ASK : Nat := 4

def RDT_MSG_NACK : Nat := 5

/-- Wire packet `rdt_packet_t`.  `payload` always holds the full 192
zero-padded payload bytes. -/
structure RdtPacket where
  channel : Nat
  seq_num : Nat
  service_code : Nat
  payload : List Nat
  crc : Nat
deriving Repr, DecidableEq

/-- The external CRC function: the CRC of a packet is a function of the
fields that precede the `crc` field (`esp_crc32_le` over the packed
struct minus its last word). -/
def CrcFn : Type := Nat → Nat → Nat → List Nat → Nat

/-- `rdt_calc_crc`: CRC over every field of the packet except `crc`. -/
def rdt_calc_crc (crcF : CrcFn) (p : RdtPacket) : Nat :=
  crcF p.channel p.seq_num p.service_code p.payload

/-- `rdt_send_one_packet`: build (and emit) one packet.  Returns `none`
exactly when the C function rejects the arguments
(`ESP_ERR_INVALID_ARG` / `ESP_ERR_INVALID_SIZE`) and sends nothing. -/
def rdt_send_one_packet (crcF : CrcFn) (channel_idx seq code : Nat)
    (payload : List Nat) (payload_len : Nat) : Option RdtPacket :=
  if channel_idx ≥ RDT_MAX_CHANNELS then none
  else if payload_len > RDT_PACKET_PAYLOAD_LEN then none
  else
    let body := payload.take payload_len ++
      List.replicate (RDT_PACKET_PAYLOAD_LEN - payload_len) 0
    some { channel := channel_idx, seq_num := seq, service_code := code,
           payload := body,
           crc := crcF channel_idx seq code body }

/-- The 4-byte little-endian size prefix `size_arr` that BEGIN packets
carry (`(size >> 8k) & 0xFF`). -/
def size_arr_le (size : Nat) : List Nat :=
  [size % 256, size / 256 % 256, size / 65536 % 256, size / 16777216 % 256]

/-! ## Channel state (w_main.c) -/

/-- `rdt_block_item_t`. -/
structure RdtBlockItem where
  data_ptr : List Nat
  data_size : Nat
  user_ctx : Option Nat
deriving Repr, DecidableEq

/-- `rdt_channel_rx_t`. -/
structure RdtChannelRx where
  receiving : Bool
  total_size : Nat
  total_packets : Nat
  packets_received : Nat
  rx_buffer : Option (List Nat)
  packet_received_map : Option (List Bool)
  last_packet_time : Int
deriving Repr, DecidableEq

/-- `rdt_channel_tx_t`. -/
structure RdtChannelTx where
  sending : Bool
  current_size : Nat
  total_packets : Nat
  tx_buffer : Option (List Nat)
  retry_count : Nat
  next_seq_to_send : Nat
  packet_sent_map : Option (List Bool)
  last_send_time : Int
deriving Repr, DecidableEq

/-- `rdt_channel_t`.  A queue handle that was never created is `none`. -/
structure RdtChannel where
  rx_queue : Option (List RdtBlockItem)
  tx_queue : Option (List RdtBlockItem)
  rx_ctrl : RdtChannelRx
  tx_ctrl : RdtChannelTx
  rx_queue_length : Nat
  tx_queue_length : Nat
  max_block_size : Nat
deriving Repr, DecidableEq

/-- The two packet counters of the `rssi_t` statistics record. -/
structure RssiStats where
  total_packets_sent : Nat
  total_packets_resent : Nat
deriving Repr, DecidableEq

/-- One recorded call to `free` on a transport-owned heap object. -/
inductive HeapFree where
  | txMap (m : List Bool)
  | txBuf (b : List Nat)
  | rxMap (m : List Bool)
  | rxBuf (b : List Nat)
deriving Repr, DecidableEq

/-- Result of one engine work unit: the new channel record and
statistics, the packets handed to `esp_now_send`, the heap objects
freed, and whether `esp_event_post_to` notified the subscriber. -/
structure RdtStepOut where
  ch : RdtChannel
  stats : RssiStats
  sent : List RdtPacket
  freed : List HeapFree
  notified : Bool
deriving Repr, DecidableEq

/-- A zeroed channel record (the initial `s_channels` array entry). -/
def rdt_channel_default : RdtChannel :=
  { rx_queue := none, tx_queue := none,
    rx_ctrl := { receiving := false, total_size := 0, total_packets := 0,
                 packets_received := 0, rx_buffer := none,
                 packet_received_map := none, last_packet_time := 0 },
    tx_ctrl := { sending := false, current_size := 0, total_packets := 0,
                 tx_buffer := none, retry_count := 0, next_seq_to_send := 0,
                 packet_sent_map := none, last_send_time := 0 },
    rx_queue_length := 0, tx_queue_length := 0, max_block_size := 0 }

/-- The DATA chunk length computation used at every DATA copy site:
`chunk_len = 192` clamped by `size - offset` (a 32-bit `size_t`
subtraction) when `offset + 192` overshoots the block. -/
def rdt_data_chunk_len (size off : Nat) : Nat :=
  if off + RDT_PACKET_PAYLOAD_LEN > size then sub32 size off
  else RDT_PACKET_PAYLOAD_LEN

/-- The packet count of a block: `(size + 191) / 192 + 2` (BEGIN and
END included), truncated to the `uint16_t` fields that store it. -/
def rdt_total_packets (size : Nat) : Nat :=
  ((size + (RDT_PACKET_PAYLOAD_LEN - 1)) / RDT_PACKET_PAYLOAD_LEN + 2) % 65536

/-! ## Receiver-side NACK construction (`rdt_send_nack_for_missing`) -/

/-- The scan loop of `rdt_send_nack_for_missing`: walk the receive map,
append each missing sequence number as two little-endian bytes, count
each missing packet in `total_packets_resent`, and stop early when the
192-byte payload is full.  Returns the stored bytes, the write index
and the updated resend counter. -/
def rdt_nack_scan (map : List Bool) :
    Nat → Nat → Nat → List Nat → Nat → List Nat × Nat × Nat
  | 0, _, idx, acc, r => (acc, idx, r)
  | fuel + 1, i, idx, acc, r =>
    if map.getD i false then
      rdt_nack_scan map fuel (i + 1) idx acc r
    else
      let r2 := addU32 r 1
      if idx + 2 ≤ RDT_PACKET_PAYLOAD_LEN then
        rdt_nack_scan map fuel (i + 1) (idx + 2)
          (acc ++ [i % 256, i / 256 % 256]) r2
      else
        (acc, idx, r2)

/-- `rdt_send_nack_for_missing`: build and emit the NACK listing every
missing sequence number, terminated by `0xFFFF` when it fits. -/
def rdt_send_nack_for_missing (crcF : CrcFn) (channel_idx : Nat)
    (rx : RdtChannelRx) (stats : RssiStats) : RssiStats × List RdtPacket :=
  let m := rx.packet_received_map.getD []
  let scan := rdt_nack_scan m rx.total_packets 0 0 []
    stats.total_packets_resent
  let bytes := if scan.2.1 + 2 ≤ RDT_PACKET_PAYLOAD_LEN then
      scan.1 ++ [255, 255]
    else scan.1
  let buffer := bytes ++ List.replicate (RDT_PACKET_PAYLOAD_LEN - bytes.length) 0
  ({ stats with total_packets_resent := scan.2.2 },
   (rdt_send_one_packet crcF channel_idx 0 RDT_MSG_NACK buffer
      RDT_PACKET_PAYLOAD_LEN).toList)

/-! ## Sender-side NACK handling (`RDT_MSG_NACK` branch) -/

/-- The body of one iteration of the `RDT_MSG_NACK` loop for an
in-range `missing_seq` check: count the resend and retransmit BEGIN,
END or the DATA chunk for the listed sequence number. -/
def rdt_nack_resend_step (crcF : CrcFn) (channel_idx : Nat)
    (tx : RdtChannelTx) (missing_seq r : Nat) : Nat × List RdtPacket :=
  if missing_seq < tx.total_packets then
    if missing_seq = 0 then
      (addU32 r 1, (rdt_send_one_packet crcF channel_idx 0 RDT_MSG_BEGIN
        (size_arr_le tx.current_size) 4).toList)
    else if missing_seq = tx.total_packets - 1 then
      (addU32 r 1, (rdt_send_one_packet crcF channel_idx missing_seq
        RDT_MSG_END [] 0).toList)
    else
      (addU32 r 1, (rdt_send_one_packet crcF channel_idx missing_seq
        RDT_MSG_DATA
        (((tx.tx_buffer.getD []).drop
            ((missing_seq - 1) * RDT_PACKET_PAYLOAD_LEN)).take
          (rdt_data_chunk_len tx.current_size
            ((missing_seq - 1) * RDT_PACKET_PAYLOAD_LEN)))
        (rdt_data_chunk_len tx.current_size
          ((missing_seq - 1) * RDT_PACKET_PAYLOAD_LEN))).toList)
  else (r, [])

/-- The retransmission loop of the `RDT_MSG_NACK` branch: read up to 96
little-endian sequence numbers from the payload, stop at the `0xFFFF`
sentinel, and run `rdt_nack_resend_step` for each listed packet. -/
def rdt_nack_resend (crcF : CrcFn) (channel_idx : Nat) (tx : RdtChannelTx)
    (payload : List Nat) : Nat → Nat → Nat → Nat × List RdtPacket
  | 0, _, r => (r, [])
  | fuel + 1, i, r =>
    if payload.getD (2 * i) 0 + 256 * payload.getD (2 * i + 1) 0 = 65535 then
      (r, [])
    else
      let step := rdt_nack_resend_step crcF channel_idx tx
        (payload.getD (2 * i) 0 + 256 * payload.getD (2 * i + 1) 0) r
      let rest := rdt_nack_resend crcF channel_idx tx payload fuel (i + 1) step.1
      (rest.1, step.2 ++ rest.2)

/-! ## `rdt_process_received_packet` -/

/-- `rdt_process_received_packet`: CRC check, then the BEGIN / DATA /
END / ASK / NACK state machine of the channel, translated branch by
branch from w_main.c lines 360-578. -/
def rdt_process_received_packet (crcF : CrcFn) (channel_idx : Nat) (now : Int)
    (ch : RdtChannel) (stats : RssiStats) (pkt : RdtPacket) : RdtStepOut :=
  if channel_idx ≥ RDT_MAX_CHANNELS then
    ⟨ch, stats, [], [], false⟩
  else if ch.tx_queue = none ∨ ch.tx_queue_length = 0 ∨ ch.rx_queue = none then
    ⟨ch, stats, [], [], false⟩
  else if rdt_calc_crc crcF pkt ≠ pkt.crc then
    ⟨ch, stats, [], [], false⟩
  else
    let rx := ch.rx_ctrl
    let tx := ch.tx_ctrl
    if pkt.service_code = RDT_MSG_BEGIN then
      -- payload bytes are byte values (< 256), so the C `|` of the four
      -- disjoint shifted bytes is their sum
      let p0 := pkt.payload.getD 0 0
      let p1 := pkt.payload.getD 1 0
      let p2 := pkt.payload.getD 2 0
      let p3 := pkt.payload.getD 3 0
      let total_size :=
        if p0 ≠ 0 ∨ p1 ≠ 0 ∨ p2 ≠ 0 ∨ p3 ≠ 0 then
          p0 + 256 * p1 + 65536 * p2 + 16777216 * p3
        else ch.max_block_size
      let total_packets := rdt_total_packets total_size
      let freed := (rx.rx_buffer.map HeapFree.rxBuf).toList ++
        (rx.packet_received_map.map HeapFree.rxMap).toList
      let rx2 : RdtChannelRx :=
        { receiving := true, total_size := total_size,
          total_packets := total_packets, packets_received := 1,
          rx_buffer := some (List.replicate total_size 0),
          packet_received_map :=
            some ((List.replicate total_packets false).set pkt.seq_num true),
          last_packet_time := now }
      let stats2 := { stats with
        total_packets_sent := addU32 stats.total_packets_sent total_packets }
      ⟨{ ch with rx_ctrl := rx2 }, stats2, [], freed, false⟩
    else if pkt.service_code = RDT_MSG_DATA then
      if rx.receiving = false then ⟨ch, stats, [], [], false⟩
      else if rx.total_packets ≤ pkt.seq_num then ⟨ch, stats, [], [], false⟩
      else
        let m := rx.packet_received_map.getD []
        let rx2 : RdtChannelRx :=
          if m.getD pkt.seq_num false then
            { rx with last_packet_time := now }
          else
            let off := (pkt.seq_num - 1) * RDT_PACKET_PAYLOAD_LEN
            let clen := rdt_data_chunk_len rx.total_size off
            let buf := rx.rx_buffer.getD []
            let buf2 := if off < rx.total_size then
                listWrite buf off (pkt.payload.take clen)
              else buf
            { rx with
              packet_received_map := some (m.set pkt.seq_num true),
              packets_received := rx.packets_received + 1,
              rx_buffer := some buf2,
              last_packet_time := now }
        ⟨{ ch with rx_ctrl := rx2 }, stats, [], [], false⟩
    else if pkt.service_code = RDT_MSG_END then
      if rx.receiving = false then ⟨ch, stats, [], [], false⟩
      else if pkt.seq_num ≠ rx.total_packets - 1 then ⟨ch, stats, [], [], false⟩
      else
        let m := rx.packet_received_map.getD []
        let marked := m.getD pkt.seq_num false
        let m2 := if marked then m else m.set pkt.seq_num true
        let pr2 := if marked then rx.packets_received else rx.packets_received + 1
        if pr2 ≠ rx.total_packets then
          let rx2 := { rx with
            packet_received_map := some m2,
            packets_received := pr2, last_packet_time := now }
          let nack := rdt_send_nack_for_missing crcF channel_idx rx2 stats
          ⟨{ ch with rx_ctrl := rx2 }, nack.1, nack.2, [], false⟩
        else
          let ask := (rdt_send_one_packet crcF channel_idx 0 RDT_MSG_ASK [] 0).toList
          let buf := rx.rx_buffer.getD []
          let completed : RdtBlockItem :=
            { data_ptr := buf, data_size := rx.total_size, user_ctx := none }
          let rq := ch.rx_queue.getD []
          let enq := rq.length < ch.rx_queue_length
          let rq2 := if enq then rq ++ [completed] else rq
          let freedB : List HeapFree := if enq then [] else [HeapFree.rxBuf buf]
          let freedM := (rx.packet_received_map.map HeapFree.rxMap).toList
          let rx2 := { rx with
            rx_buffer := none, packet_received_map := none,
            packets_received := pr2, receiving := false,
            last_packet_time := now }
          ⟨{ ch with rx_ctrl := rx2, rx_queue := some rq2 }, stats, ask,
           freedB ++ freedM, true⟩
    else if pkt.service_code = RDT_MSG_ASK then
      if tx.sending then
        let freed := (tx.packet_sent_map.map HeapFree.txMap).toList ++
          (tx.tx_buffer.map HeapFree.txBuf).toList
        let tx2 := { tx with
          packet_sent_map := none, tx_buffer := none, sending := false }
        ⟨{ ch with tx_ctrl := tx2 }, stats, [], freed, false⟩
      else ⟨ch, stats, [], [], false⟩
    else if pkt.service_code = RDT_MSG_NACK then
      if tx.sending then
        let res := rdt_nack_resend crcF channel_idx tx pkt.payload 96 0
          stats.total_packets_resent
        ⟨ch, { stats with total_packets_resent := res.1 }, res.2, [], false⟩
      else ⟨ch, stats, [], [], false⟩
    else ⟨ch, stats, [], [], false⟩

/-! ## `rdt_process_tx_channel` -/

/-- The drain loop of the Sending state: emit every not-yet-sent
sequence up to `total - 1` (END for the last, DATA otherwise), marking
`packet_sent_map` and refreshing `last_send_time` for each.  `fuel` is
`total - next` at the call site. -/
def rdt_tx_drain (crcF : CrcFn) (channel_idx : Nat) (now : Int)
    (size total : Nat) (buf : List Nat) :
    Nat → Nat → List Bool → Int → List Bool × Nat × Int × List RdtPacket
  | 0, next, map, last => (map, next, last, [])
  | fuel + 1, next, map, last =>
    if next < total then
      if map.getD next false then
        rdt_tx_drain crcF channel_idx now size total buf fuel (next + 1) map last
      else
        let pkt :=
          if next = total - 1 then
            (rdt_send_one_packet crcF channel_idx next RDT_MSG_END [] 0).toList
          else
            let off := (next - 1) * RDT_PACKET_PAYLOAD_LEN
            let clen := rdt_data_chunk_len size off
            (rdt_send_one_packet crcF channel_idx next RDT_MSG_DATA
              ((buf.drop off).take clen) clen).toList
        let rest := rdt_tx_drain crcF channel_idx now size total buf fuel
          (next + 1) (map.set next true) now
        (rest.1, rest.2.1, rest.2.2.1, pkt ++ rest.2.2.2)
    else (map, next, last, [])

/-- `rdt_restart_tx_block`: zero the sent map, re-emit BEGIN, reset
`next_seq_to_send` to 1 and stamp `last_send_time`. -/
def rdt_restart_tx_block (crcF : CrcFn) (channel_idx : Nat) (now : Int)
    (tx : RdtChannelTx) : RdtChannelTx × List RdtPacket :=
  ({ tx with
     packet_sent_map := some ((List.replicate tx.total_packets false).set 0 true),
     next_seq_to_send := 1,
     last_send_time := now },
   (rdt_send_one_packet crcF channel_idx 0 RDT_MSG_BEGIN
     (size_arr_le tx.current_size) 4).toList)

/-- `rdt_process_tx_channel`: the per-tick send machine — Idle → Sending
dequeue with BEGIN emission, the ACK timeout with retry accounting and
either abandonment or restart, and the drain of unsent sequences. -/
def rdt_process_tx_channel (crcF : CrcFn) (channel_idx : Nat) (now : Int)
    (ch : RdtChannel) (stats : RssiStats) : RdtStepOut :=
  if ch.tx_queue = none ∨ ch.tx_queue_length = 0 ∨ ch.rx_queue = none then
    ⟨ch, stats, [], [], false⟩
  else
    let tx := ch.tx_ctrl
    if tx.sending = false then
      match ch.tx_queue.getD [] with
      | [] => ⟨ch, stats, [], [], false⟩
      | item :: rest =>
        let total := rdt_total_packets item.data_size
        let tx2 : RdtChannelTx :=
          { sending := true, retry_count := 0, current_size := item.data_size,
            total_packets := total, tx_buffer := some item.data_ptr,
            packet_sent_map := some ((List.replicate total false).set 0 true),
            next_seq_to_send := 1, last_send_time := now }
        let stats2 := { stats with
          total_packets_sent := addU32 stats.total_packets_sent total }
        ⟨{ ch with tx_queue := some rest, tx_ctrl := tx2 }, stats2,
         (rdt_send_one_packet crcF channel_idx 0 RDT_MSG_BEGIN
           (size_arr_le item.data_size) 4).toList, [], false⟩
    else
      if now - tx.last_send_time > (RDT_ACK_TIMEOUT_MS : Int) * 1000 then
        let rc2 := (tx.retry_count + 1) % 256
        let stats2 := { stats with
          total_packets_resent := addU32 stats.total_packets_resent tx.total_packets }
        if RDT_MAX_RETRY_COUNT ≤ rc2 then
          let freed := (tx.packet_sent_map.map HeapFree.txMap).toList ++
            (tx.tx_buffer.map HeapFree.txBuf).toList
          let tx2 := { tx with
            retry_count := rc2,
            packet_sent_map := none, tx_buffer := none, sending := false }
          ⟨{ ch with tx_ctrl := tx2 }, stats2, [], freed, false⟩
        else
          let res := rdt_restart_tx_block crcF channel_idx now
            { tx with retry_count := rc2 }
          ⟨{ ch with tx_ctrl := res.1 }, stats2, res.2, [], false⟩
      else
        let res := rdt_tx_drain crcF channel_idx now tx.current_size
          tx.total_packets (tx.tx_buffer.getD [])
          (tx.total_packets - tx.next_seq_to_send) tx.next_seq_to_send
          (tx.packet_sent_map.getD []) tx.last_send_time
        let tx2 := { tx with
          packet_sent_map := some res.1,
          next_seq_to_send := res.2.1, last_send_time := res.2.2.1 }
        ⟨{ ch with tx_ctrl := tx2 }, stats, res.2.2.2, [], false⟩

/-! ## Public queue API (w_main.c) -/

/-- `Rdt_SendBlock`: validate, then enqueue the caller's block on the
channel's tx queue.  Returns `0` on success and `1` on every failure;
the function itself never frees the block. -/
def Rdt_SendBlock (chans : List RdtChannel) (channel : Nat)
    (data_ptr : Option (List Nat)) (size : Nat) (user_ctx : Option Nat) :
    Nat × List RdtChannel :=
  if channel ≥ RDT_MAX_CHANNELS then (1, chans)
  else if data_ptr = none ∨ size = 0 then (1, chans)
  else
    let ch := chans.getD channel rdt_channel_default
    match ch.tx_queue with
    | none => (1, chans)
    | some q =>
      if ch.tx_queue_length ≤ q.length then (1, chans)
      else
        (0, chans.set channel
          { ch with tx_queue := some (q ++
              [{ data_ptr := data_ptr.getD [], data_size := size,
                 user_ctx := user_ctx }]) })

/-- `Rdt_ReceiveBlock` (with a zero wait): pop the head of the rx queue
if one is ready. -/
def Rdt_ReceiveBlock (chans : List RdtChannel) (channel : Nat) :
    Option RdtBlockItem × List RdtChannel :=
  if channel ≥ RDT_MAX_CHANNELS then (none, chans)
  else
    let ch := chans.getD channel rdt_channel_default
    match ch.rx_queue with
    | none => (none, chans)
    | some [] => (none, chans)
    | some (b :: rest) =>
      (some b, chans.set channel { ch with rx_queue := some rest })

/-! ## Engine traces -/

/-- One unit of work of `rdt_task` restricted to a single channel:
either a periodic tick of the send machine or the delivery of one
received packet. -/
inductive RdtEvent where
  | tick (now : Int)
  | recv (now : Int) (pkt : RdtPacket)
deriving Repr, DecidableEq

/-- Dispatch one event to the channel. -/
def rdt_step (crcF : CrcFn) (channel_idx : Nat)
    (s : RdtChannel × RssiStats) : RdtEvent → RdtStepOut
  | .tick now => rdt_process_tx_channel crcF channel_idx now s.1 s.2
  | .recv now pkt => rdt_process_received_packet crcF channel_idx now s.1 s.2 pkt

/-- Run a trace of events, accumulating the heap-free log. -/
def rdt_run (crcF : CrcFn) (channel_idx : Nat)
    (s : RdtChannel × RssiStats) :
    List RdtEvent → (RdtChannel × RssiStats) × List HeapFree
  | [] => (s, [])
  | e :: es =>
    let o := rdt_step crcF channel_idx s e
    let rest := rdt_run crcF channel_idx (o.ch, o.stats) es
    (rest.1, o.freed ++ rest.2)

/-- The tx data buffers among the freed heap objects. -/
def freedTxBufs (l : List HeapFree) : List (List Nat) :=
  l.filterMap fun f => match f with
    | .txBuf b => some b
    | _ => none

/-- Deliver a list of packets to a channel's reassembler in order
(the receiving node's engine loop). -/
def rdt_deliver_list (crcF : CrcFn) (channel_idx : Nat) (now : Int)
    (s : RdtChannel × RssiStats) (pkts : List RdtPacket) :
    RdtChannel × RssiStats :=
  pkts.foldl (fun acc p =>
    let o := rdt_process_received_packet crcF channel_idx now acc.1 acc.2 p
    (o.ch, o.stats)) s

/-! ## Parameter service (w_param.c) -/

/-- `W_PARAM_GET` from w_param.h. -/
def W_PARAM_GET : Nat := 0

/-- `W_PARAM_SET` from w_param.h. -/
def W_PARAM_SET : Nat := 1

/-- `sizeof(w_header_param_t)`: the packed 3-byte header
`{message_type, set_or_get, return_code}` (the `data[0]` member has
size zero). -/
def sizeof_w_header_param : Nat := 3

/-- `sizeof(w_header_param_t *)` on the 32-bit ESP32 target: the
not-found reply is sent with `sizeof(hdr_out)`, the size of the
*pointer*, i.e. 4 bytes. -/
def sizeof_param_hdr_ptr : Nat := 4

/-- One `w_param_descriptor_t`: a read handler takes the available
buffer size and yields a return code with the bytes it wrote; a write
handler takes the incoming bytes and yields a return code. -/
structure WParamDescriptor where
  message_type : Nat
  read_fn : Option (Nat → Nat × List Nat)
  write_fn : Option (List Nat → Nat)

/-- `find_param_descriptor`: first table entry with the given
`message_type`. -/
def find_param_descriptor (table : List WParamDescriptor) (mt : Nat) :
    Option WParamDescriptor :=
  table.find? fun d => d.message_type == mt

/-- The static client-side globals of w_param.c.  A `NULL` user pointer
is `none`; a non-`NULL` pointer is `some` of the pointee's current
contents. -/
structure WParamClient where
  g_initialized : Bool
  g_request_in_progress : Bool
  g_req_msg_type : Nat
  g_req_set_or_get : Nat
  g_resp_user_buf : Option (List Nat)
  g_resp_user_size : Option Nat
  g_resp_return_code : Nat
  g_resp_data_len : Nat
  g_response_sem : Bool

/-- Result of `w_param_process_packet`: the updated globals and the
blocks the function handed to `Rdt_SendBlock` on `W_CHAN_PARAMS`. -/
structure WParamProcessOut where
  st : WParamClient
  sent : List (List Nat)

/-- `w_param_process_packet`.  `junk` stands for the uninitialized heap
byte that pads the not-found reply to `sizeof(hdr_out)` (the pointer
size, a slip for the 3-byte header size). -/
def w_param_process_packet (table : List WParamDescriptor)
    (st : WParamClient) (packet : List Nat) (junk : Nat) : WParamProcessOut :=
  if packet.length < sizeof_w_header_param then ⟨st, []⟩
  else
    let mt := packet.getD 0 0
    let sog := packet.getD 1 0
    let payload_in := packet.drop sizeof_w_header_param
    let payload_in_size := packet.length - sizeof_w_header_param
    match find_param_descriptor table mt with
    | none =>
      let is_request := sog = W_PARAM_GET ∨ sog = W_PARAM_SET
      let sent : List (List Nat) :=
        if is_request then
          [[mt, sog, 1] ++ List.replicate (sizeof_param_hdr_ptr - sizeof_w_header_param) junk]
        else []
      if st.g_request_in_progress ∧ st.g_req_msg_type = mt ∧
          st.g_req_set_or_get = sog then
        ⟨{ st with
           g_resp_return_code := 1,
           g_resp_user_size := st.g_resp_user_size.map fun _ => 0,
           g_response_sem := true }, sent⟩
      else ⟨st, sent⟩
    | some desc =>
      if sog = W_PARAM_GET ∨ sog = W_PARAM_SET then
        let res : Nat × List Nat :=
          if sog = W_PARAM_GET then
            match desc.read_fn with
            | some f => ((f 256).1, (f 256).2.take 256)
            | none => (2, [])
          else
            match desc.write_fn with
            | some f => (f payload_in, [])
            | none => (3, [])
        ⟨st, [[mt, sog, res.1] ++ res.2]⟩
      else
        if st.g_request_in_progress ∧ st.g_req_msg_type = mt ∧
            st.g_req_set_or_get = sog then
          let rc := packet.getD 2 0
          match st.g_resp_user_buf, st.g_resp_user_size with
          | some _, some usz =>
            let rcv := min payload_in_size usz
            ⟨{ st with
               g_resp_return_code := rc,
               g_resp_user_buf := some (payload_in.take rcv),
               g_resp_user_size := some rcv,
               g_resp_data_len := rcv,
               g_response_sem := true }, []⟩
          | none, some _ =>
            ⟨{ st with
               g_resp_return_code := rc,
               g_resp_user_size := some payload_in_size,
               g_resp_data_len := payload_in_size,
               g_response_sem := true }, []⟩
          | _, none =>
            ⟨{ st with g_resp_return_code := rc, g_response_sem := true }, []⟩
        else ⟨st, []⟩

/-- Result of one phase of `w_param_request_blocking`: the updated
globals, the C return value, the value written through `return_code`
(`none` when nothing was written), whether the call is now parked on
the semaphore, and the request block handed to the transport. -/
structure WParamCallOut where
  st : WParamClient
  ret : Int
  rc_out : Option Nat
  waiting : Bool
  sent : List (List Nat)

/-- The entry phase of `w_param_request_blocking`, up to (and
including) the asynchronous send: the initialization and
single-in-flight guards, the recording of the pending request, the
semaphore drain, and the send-failure rollback.  `rc_ptr` tells whether
the caller passed a non-`NULL` `return_code`; `send_ok` is the outcome
of `w_param_send_request_async`. -/
def w_param_request_begin (st : WParamClient) (mt sog : Nat)
    (value : List Nat) (resp_data : Option (List Nat))
    (resp_size : Option Nat) (rc_ptr : Bool) (send_ok : Bool) :
    WParamCallOut :=
  if st.g_initialized = false then
    ⟨st, -1, if rc_ptr then some 255 else none, false, []⟩
  else if st.g_request_in_progress then
    ⟨st, -2, if rc_ptr then some 254 else none, false, []⟩
  else
    let st2 := { st with
      g_request_in_progress := true,
      g_req_msg_type := mt,
      g_req_set_or_get := sog,
      g_resp_return_code := 255,
      g_resp_data_len := 0,
      g_resp_user_buf := resp_data,
      g_resp_user_size := resp_size,
      g_response_sem := false }
    if send_ok = false then
      ⟨{ st2 with g_request_in_progress := false }, 1,
       if rc_ptr then some 253 else none, false, []⟩
    else
      ⟨st2, 0, none, true, [[mt, sog, 0] ++ value]⟩

/-- The completion phase of `w_param_request_blocking`: the
`xSemaphoreTake(g_response_sem, wait_ticks)` wait — a signaled
semaphore completes the call with the recorded response code, an
unsignaled one times out with code `0xFC`. -/
def w_param_request_finish (st : WParamClient) (rc_ptr : Bool) :
    WParamCallOut :=
  if st.g_response_sem then
    ⟨{ st with g_response_sem := false, g_request_in_progress := false }, 0,
     if rc_ptr then some st.g_resp_return_code else none, false, []⟩
  else
    ⟨{ st with g_request_in_progress := false }, -3,
     if rc_ptr then some 252 else none, false, []⟩

/-! ## File service (w_files.c) -/

/-- `W_FILES_MAX_DATA` from w_files.h. -/
def W_FILES_MAX_DATA : Nat := 4096

/-- Return codes from w_files.h. -/
def W_FILES_OK : Nat := 0

def W_FILES_ERR_UNKNOWN : Nat := 1

def W_FILES_ERR_NOFILE : Nat := 2

def W_FILES_ERR_IO : Nat := 3

def W_FILES_ERR_TOOLARGE : Nat := 4

def W_FILES_ERR_INTERNAL : Nat := 5

/-- Opcode `W_FILES_CMD_READ` and its response from w_files.h. -/
def W_FILES_CMD_READ : Nat := 3

def W_FILES_CMD_READ_RESP : Nat := 4

/-- The sentinel offset `0xFFFFFFFF` (append on WRITE, no-seek on READ). -/
def W_FILES_OFFSET_NONE : Nat := 4294967295

/-- Behaviour of the file-system port (`w_port_fopen` / `w_port_fseek`
/ `w_port_fread` / `ferror`) during one READ request.  `read_result n`
is what `w_port_fread` returns when asked for `n` bytes. -/
structure WFilesReadPort where
  file_exists : Bool
  seek_ok : Bool
  read_result : Nat → List Nat
  ferr : Bool

/-- The READ branch of `w_files_process_request` (w_files.c lines
511-551): open, optional seek, read
`len_to_read = min (if data_len > 0 then data_len else MAX) MAX`
bytes, report IO only when a short read coincides with a file-system
error.  Returns the response `return_code` and the bytes placed in the
response payload (whose length becomes the response `data_length`). -/
def w_files_read_branch (port : WFilesReadPort) (offset data_len : Nat) :
    Nat × List Nat :=
  if port.file_exists = false then (W_FILES_ERR_NOFILE, [])
  else
    let rc1 := if offset ≠ W_FILES_OFFSET_NONE ∧ port.seek_ok = false then
        W_FILES_ERR_IO
      else W_FILES_OK
    if rc1 = W_FILES_OK then
      let len_to_read := if 0 < data_len then data_len else W_FILES_MAX_DATA
      let len_to_read := if W_FILES_MAX_DATA < len_to_read then
          W_FILES_MAX_DATA
        else len_to_read
      let read_bytes := port.read_result len_to_read
      let rc := if read_bytes.length < len_to_read ∧ port.ferr then
          W_FILES_ERR_IO
        else W_FILES_OK
      (rc, read_bytes)
    else (rc1, [])

/-- The file-system port of a healthy file system holding `file` at the
requested path: `fopen` succeeds iff the file exists, `fseek` always
succeeds, and `fread` returns the bytes from the seek position (the
start of the file when the offset is the `0xFFFFFFFF` no-seek
sentinel), with no error flag. -/
def idealReadPort (file : Option (List Nat)) (offset : Nat) :
    WFilesReadPort :=
  { file_exists := file.isSome,
    seek_ok := true,
    read_result := fun n =>
      ((file.getD []).drop (if offset = W_FILES_OFFSET_NONE then 0 else offset)).take n,
    ferr := false }

/-- The READ request semantics over a healthy file system. -/
def w_files_read_ideal (file : Option (List Nat)) (offset data_len : Nat) :
    Nat × List Nat :=
  w_files_read_branch (idealReadPort file offset) offset data_len

/-- The response header `w_files_header_t` as the server fills it for a
READ: `command + 1`, the computed `return_code`, the echoed
`request_id` and `offset`, `data_length` set to the bytes actually
read, `path_length` zero. -/
structure WFilesRespHeader where
  command : Nat
  return_code : Nat
  request_id : Nat
  offset : Nat
  data_length : Nat
  path_length : Nat
deriving Repr, DecidableEq

/-- Assembly of the READ response block from the READ branch result. -/
def w_files_read_response (port : WFilesReadPort)
    (request_id offset data_len : Nat) : WFilesRespHeader × List Nat :=
  let r := w_files_read_branch port offset data_len
  ({ command := W_FILES_CMD_READ_RESP, return_code := r.1,
     request_id := request_id, offset := offset,
     data_length := r.2.length, path_length := 0 }, r.2)

/-! ## Pairing service (w_connect.c) -/

/-- `W_MSG_TYPE_SYSTEM_PAIRING_MAC` from w_user.h. -/
def W_MSG_TYPE_SYSTEM_PAIRING_MAC : Nat := 1

/-- `W_MSG_TYPE_SYSTEM_PAIRING_DONE` from w_user.h. -/
def W_MSG_TYPE_SYSTEM_PAIRING_DONE : Nat := 2

/-- `w_header_sys_t`. -/
structure WHeaderSys where
  message_type : Nat
  peer_addr : List Nat
  channel : Nat
deriving Repr, DecidableEq

/-- The all-zero MAC. -/
def zero_mac : List Nat := [0, 0, 0, 0, 0, 0]

/-- The pairing-related globals of w_connect.c plus the two external
stores the module writes: the persisted peer MAC
(`S_MC_Set_Paired_Display_id`) and the radio peer registration
(`Rdt_AddPeer`). -/
structure PairState where
  pairing_active : Bool
  have_temp_peer : Bool
  temp_peer_mac : List Nat
  got_done_from_peer : Bool
  persisted_peer : List Nat
  radio_peer : Option (List Nat)
  handler_subscribed : Bool
deriving Repr, DecidableEq

/-- `wireless_pairing_receive_cb` for one received block: `none` stands
for a block that could not be fetched or has the wrong size.  Returns
the new state and the `PAIRING_DONE` replies sent. -/
def wireless_pairing_receive_cb (my_mac : List Nat) (st : PairState)
    (blk : Option WHeaderSys) : PairState × List WHeaderSys :=
  if st.pairing_active = false then (st, [])
  else
    match blk with
    | none => (st, [])
    | some m =>
      if m.message_type = W_MSG_TYPE_SYSTEM_PAIRING_MAC then
        if m.peer_addr = zero_mac then (st, [])
        else
          let st2 := if st.have_temp_peer then st
            else { st with temp_peer_mac := m.peer_addr, have_temp_peer := true }
          (st2, [{ message_type := W_MSG_TYPE_SYSTEM_PAIRING_DONE,
                   peer_addr := my_mac, channel := 0 }])
      else if m.message_type = W_MSG_TYPE_SYSTEM_PAIRING_DONE then
        if m.peer_addr = zero_mac then (st, [])
        else
          let st2 := if st.have_temp_peer then st
            else { st with temp_peer_mac := m.peer_addr, have_temp_peer := true }
          ({ st2 with got_done_from_peer := true }, [])
      else (st, [])

/-- `finalize_pairing`: persist the temporary peer MAC, register it as
the radio peer, clear `pairing_active`, unsubscribe the handler. -/
def finalize_pairing (st : PairState) : PairState :=
  { st with
    persisted_peer := st.temp_peer_mac,
    radio_peer := some st.temp_peer_mac,
    pairing_active := false,
    handler_subscribed := false }

/-- `revert_pairing`: persist the all-zero MAC, clear `pairing_active`,
unsubscribe, and reset the temporary state. -/
def revert_pairing (st : PairState) : PairState :=
  { st with
    persisted_peer := zero_mac,
    pairing_active := false,
    handler_subscribed := false,
    have_temp_peer := false,
    got_done_from_peer := false,
    temp_peer_mac := zero_mac }

/-- `Wireless_Pairing_Begin`: raise `pairing_active`, reset the
temporary state, clear the persisted MAC, subscribe the handler. -/
def Wireless_Pairing_Begin (st : PairState) : PairState :=
  { st with
    pairing_active := true,
    have_temp_peer := false,
    got_done_from_peer := false,
    temp_peer_mac := zero_mac,
    persisted_peer := zero_mac,
    handler_subscribed := true }

/-- Deliver the blocks of one 1000 ms loop period to the receive
callback. -/
def pairing_deliver_round (my_mac : List Nat) (st : PairState)
    (round : List (Option WHeaderSys)) : PairState × List WHeaderSys :=
  round.foldl (fun acc b =>
    let r := wireless_pairing_receive_cb my_mac acc.1 b
    (r.1, acc.2 ++ r.2)) (st, [])

/-- `wireless_pairing_task`: each list entry is the batch of blocks the
handler processed during one 1000 ms loop iteration; the iteration
broadcasts a `PAIRING_MAC`, then finalizes as soon as
`got_done_from_peer` is observed.  An exhausted list is the 10 s
timeout, which reverts.  Returns the final state, whether the
procedure finalized, and every message sent. -/
def wireless_pairing_task_run (my_mac : List Nat) (st : PairState) :
    List (List (Option WHeaderSys)) → PairState × Bool × List WHeaderSys
  | [] => (revert_pairing st, false, [])
  | round :: rest =>
    let bcast : WHeaderSys :=
      { message_type := W_MSG_TYPE_SYSTEM_PAIRING_MAC,
        peer_addr := my_mac, channel := 0 }
    let r := pairing_deliver_round my_mac st round
    if r.1.got_done_from_peer then
      (finalize_pairing r.1, true, bcast :: r.2)
    else
      let rest2 := wireless_pairing_task_run my_mac r.1 rest
      (rest2.1, rest2.2.1, (bcast :: r.2) ++ rest2.2.2)

/-! ## Branch equations of the receive and tick state machines -/

/-- The END packet that completes a block: ASK is emitted, the block is
enqueued when the rx queue has room and dropped and freed otherwise,
the subscriber is notified unconditionally, and the rx state returns to
idle. -/
theorem rdt_recv_end_complete_eq (crcF : CrcFn) (channel_idx : Nat) (now : Int)
    (ch : RdtChannel) (stats : RssiStats) (pkt : RdtPacket)
    (hch : ¬ channel_idx ≥ RDT_MAX_CHANNELS)
    (hq : ¬(ch.tx_queue = none ∨ ch.tx_queue_length = 0 ∨ ch.rx_queue = none))
    (hcrc : rdt_calc_crc crcF pkt = pkt.crc)
    (hsvc : pkt.service_code = RDT_MSG_END)
    (hrecv : ch.rx_ctrl.receiving = true)
    (hseq : pkt.seq_num = ch.rx_ctrl.total_packets - 1)
    (hmarked : (ch.rx_ctrl.packet_received_map.getD []).getD pkt.seq_num false = false)
    (hdone : ch.rx_ctrl.packets_received + 1 = ch.rx_ctrl.total_packets) :
    rdt_process_received_packet crcF channel_idx now ch stats pkt =
      ⟨{ ch with
         rx_ctrl := { ch.rx_ctrl with
           rx_buffer := none, packet_received_map := none,
           packets_received := ch.rx_ctrl.packets_received + 1,
           receiving := false, last_packet_time := now },
         rx_queue := some (if (ch.rx_queue.getD []).length < ch.rx_queue_length
           then ch.rx_queue.getD [] ++
             [⟨ch.rx_ctrl.rx_buffer.getD [], ch.rx_ctrl.total_size, none⟩]
           else ch.rx_queue.getD []) },
       stats,
       (rdt_send_one_packet crcF channel_idx 0 RDT_MSG_ASK [] 0).toList,
       (if (ch.rx_queue.getD []).length < ch.rx_queue_length then []
        else [HeapFree.rxBuf (ch.rx_ctrl.rx_buffer.getD [])]) ++
         (ch.rx_ctrl.packet_received_map.map HeapFree.rxMap).toList,
       true⟩ := by
  simp only [rdt_process_received_packet]
  rw [if_neg hch, if_neg hq, if_neg (not_not_intro hcrc)]
  simp only [List.getD_eq_getElem?_getD] at hmarked
  simp [hsvc, hmarked, hrecv, if_neg (not_not_intro hseq),
    if_neg (not_not_intro hdone), RDT_MSG_END, RDT_MSG_BEGIN, RDT_MSG_DATA]

/-- Little-endian recomposition of the four size bytes of a BEGIN
payload recovers the size (32-bit sizes). -/
theorem size_arr_le_decode (size : Nat) (h : size < U32) :
    size % 256 + 256 * (size / 256 % 256) + 65536 * (size / 65536 % 256) +
      16777216 * (size / 16777216 % 256) = size := by
  simp only [U32] at h
  omega

/-- A nonzero 32-bit size has at least one nonzero byte in its 4-byte
little-endian encoding. -/
theorem size_arr_le_nonzero (size : Nat) (h1 : 1 ≤ size) (h2 : size < U32) :
    size % 256 ≠ 0 ∨ size / 256 % 256 ≠ 0 ∨ size / 65536 % 256 ≠ 0 ∨
      size / 16777216 % 256 ≠ 0 := by
  simp only [U32] at h2
  by_contra hC
  push_neg at hC
  omega

/-- A BEGIN packet whose payload carries the 4-byte encoding of a
nonzero 32-bit `size` resets the reassembler: fresh zeroed buffer of
`size` bytes, fresh map with the BEGIN marked, `packets_received = 1`,
and `total_packets_sent` bumped by the announced packet count. -/
theorem rdt_recv_begin_size_eq (crcF : CrcFn) (channel_idx : Nat) (now : Int)
    (ch : RdtChannel) (stats : RssiStats) (pkt : RdtPacket) (size : Nat)
    (hch : ¬ channel_idx ≥ RDT_MAX_CHANNELS)
    (hq : ¬(ch.tx_queue = none ∨ ch.tx_queue_length = 0 ∨ ch.rx_queue = none))
    (hcrc : rdt_calc_crc crcF pkt = pkt.crc)
    (hsvc : pkt.service_code = RDT_MSG_BEGIN)
    (hpay : pkt.payload = size_arr_le size ++
      List.replicate (RDT_PACKET_PAYLOAD_LEN - 4) 0)
    (hpos : 1 ≤ size) (hlt : size < U32) :
    rdt_process_received_packet crcF channel_idx now ch stats pkt =
      ⟨{ ch with rx_ctrl :=
          { receiving := true, total_size := size,
            total_packets := rdt_total_packets size,
            packets_received := 1,
            rx_buffer := some (List.replicate size 0),
            packet_received_map := some ((List.replicate (rdt_total_packets size) false).set pkt.seq_num true),
            last_packet_time := now } },
       { stats with total_packets_sent := addU32 stats.total_packets_sent (rdt_total_packets size) },
       [],
       (ch.rx_ctrl.rx_buffer.map HeapFree.rxBuf).toList ++
         (ch.rx_ctrl.packet_received_map.map HeapFree.rxMap).toList,
       false⟩ := by
  have hb : pkt.payload.getD 0 0 = size % 256 ∧
      pkt.payload.getD 1 0 = size / 256 % 256 ∧
      pkt.payload.getD 2 0 = size / 65536 % 256 ∧
      pkt.payload.getD 3 0 = size / 16777216 % 256 := by
    rw [hpay]
    simp [size_arr_le, List.getD_append]
  obtain ⟨hb0, hb1, hb2, hb3⟩ := hb
  simp only [List.getD_eq_getElem?_getD] at hb0 hb1 hb2 hb3
  simp only [rdt_process_received_packet]
  rw [if_neg hch, if_neg hq, if_neg (not_not_intro hcrc)]
  simp [hsvc, hb0, hb1, hb2, hb3,
    if_pos (size_arr_le_nonzero size hpos hlt), size_arr_le_decode size hlt]

/-- A fresh (not yet marked) in-range DATA packet during reception is
marked, counted, and its payload chunk copied into the buffer. -/
theorem rdt_recv_data_fresh_eq (crcF : CrcFn) (channel_idx : Nat) (now : Int)
    (ch : RdtChannel) (stats : RssiStats) (pkt : RdtPacket)
    (hch : ¬ channel_idx ≥ RDT_MAX_CHANNELS)
    (hq : ¬(ch.tx_queue = none ∨ ch.tx_queue_length = 0 ∨ ch.rx_queue = none))
    (hcrc : rdt_calc_crc crcF pkt = pkt.crc)
    (hsvc : pkt.service_code = RDT_MSG_DATA)
    (hrecv : ch.rx_ctrl.receiving = true)
    (hseq : ¬ ch.rx_ctrl.total_packets ≤ pkt.seq_num)
    (hunmarked : (ch.rx_ctrl.packet_received_map.getD []).getD pkt.seq_num false = false) :
    rdt_process_received_packet crcF channel_idx now ch stats pkt =
      ⟨{ ch with rx_ctrl := { ch.rx_ctrl with
          packet_received_map :=
            some ((ch.rx_ctrl.packet_received_map.getD []).set pkt.seq_num true),
          packets_received := ch.rx_ctrl.packets_received + 1,
          rx_buffer := some
            (if (pkt.seq_num - 1) * RDT_PACKET_PAYLOAD_LEN < ch.rx_ctrl.total_size then
              listWrite (ch.rx_ctrl.rx_buffer.getD [])
                ((pkt.seq_num - 1) * RDT_PACKET_PAYLOAD_LEN)
                (pkt.payload.take (rdt_data_chunk_len ch.rx_ctrl.total_size
                  ((pkt.seq_num - 1) * RDT_PACKET_PAYLOAD_LEN)))
            else ch.rx_ctrl.rx_buffer.getD []),
          last_packet_time := now } },
       stats, [], [], false⟩ := by
  simp only [rdt_process_received_packet]
  rw [if_neg hch, if_neg hq, if_neg (not_not_intro hcrc)]
  simp only [List.getD_eq_getElem?_getD] at hunmarked
  simp [hsvc, hrecv, hunmarked, if_neg hseq,
    RDT_MSG_BEGIN, RDT_MSG_DATA, RDT_MSG_END]

/-- An ASK while sending frees the sent map and the tx buffer and
returns the send machine to Idle. -/
theorem rdt_recv_ask_eq (crcF : CrcFn) (channel_idx : Nat) (now : Int)
    (ch : RdtChannel) (stats : RssiStats) (pkt : RdtPacket)
    (hch : ¬ channel_idx ≥ RDT_MAX_CHANNELS)
    (hq : ¬(ch.tx_queue = none ∨ ch.tx_queue_length = 0 ∨ ch.rx_queue = none))
    (hcrc : rdt_calc_crc crcF pkt = pkt.crc)
    (hsvc : pkt.service_code = RDT_MSG_ASK)
    (hsending : ch.tx_ctrl.sending = true) :
    rdt_process_received_packet crcF channel_idx now ch stats pkt =
      ⟨{ ch with tx_ctrl := { ch.tx_ctrl with
          packet_sent_map := none, tx_buffer := none, sending := false } },
       stats, [],
       (ch.tx_ctrl.packet_sent_map.map HeapFree.txMap).toList ++
         (ch.tx_ctrl.tx_buffer.map HeapFree.txBuf).toList,
       false⟩ := by
  simp only [rdt_process_received_packet]
  rw [if_neg hch, if_neg hq, if_neg (not_not_intro hcrc)]
  simp [hsvc, hsending, RDT_MSG_BEGIN, RDT_MSG_DATA, RDT_MSG_END, RDT_MSG_ASK]

/-- An Idle tick with a waiting block dequeues it, emits BEGIN with the
4-byte size and counts the whole block in `total_packets_sent`. -/
theorem rdt_tick_dequeue_eq (crcF : CrcFn) (channel_idx : Nat) (now : Int)
    (ch : RdtChannel) (stats : RssiStats) (item : RdtBlockItem)
    (rest : List RdtBlockItem)
    (hq : ¬(ch.tx_queue = none ∨ ch.tx_queue_length = 0 ∨ ch.rx_queue = none))
    (hidle : ch.tx_ctrl.sending = false)
    (hqueue : ch.tx_queue.getD [] = item :: rest) :
    rdt_process_tx_channel crcF channel_idx now ch stats =
      ⟨{ ch with tx_queue := some rest, tx_ctrl :=
          { sending := true, retry_count := 0, current_size := item.data_size,
            total_packets := rdt_total_packets item.data_size,
            tx_buffer := some item.data_ptr,
            packet_sent_map := some ((List.replicate (rdt_total_packets item.data_size) false).set 0 true),
            next_seq_to_send := 1, last_send_time := now } },
       { stats with total_packets_sent := addU32 stats.total_packets_sent (rdt_total_packets item.data_size) },
       (rdt_send_one_packet crcF channel_idx 0 RDT_MSG_BEGIN
         (size_arr_le item.data_size) 4).toList,
       [], false⟩ := by
  simp only [rdt_process_tx_channel]
  rw [if_neg hq]
  simp [hidle, hqueue]

/-- A Sending tick past the ACK timeout that exhausts the retry budget
frees the sent map and the tx buffer and returns to Idle. -/
theorem rdt_tick_timeout_exhaust_eq (crcF : CrcFn) (channel_idx : Nat)
    (now : Int) (ch : RdtChannel) (stats : RssiStats)
    (hq : ¬(ch.tx_queue = none ∨ ch.tx_queue_length = 0 ∨ ch.rx_queue = none))
    (hsending : ch.tx_ctrl.sending = true)
    (hlate : now - ch.tx_ctrl.last_send_time > (RDT_ACK_TIMEOUT_MS : Int) * 1000)
    (hmax : RDT_MAX_RETRY_COUNT ≤ (ch.tx_ctrl.retry_count + 1) % 256) :
    rdt_process_tx_channel crcF channel_idx now ch stats =
      ⟨{ ch with tx_ctrl := { ch.tx_ctrl with
          retry_count := (ch.tx_ctrl.retry_count + 1) % 256,
          packet_sent_map := none, tx_buffer := none, sending := false } },
       { stats with total_packets_resent := addU32 stats.total_packets_resent ch.tx_ctrl.total_packets },
       [],
       (ch.tx_ctrl.packet_sent_map.map HeapFree.txMap).toList ++
         (ch.tx_ctrl.tx_buffer.map HeapFree.txBuf).toList,
       false⟩ := by
  simp only [rdt_process_tx_channel]
  rw [if_neg hq]
  simp [hsending, if_pos hlate, if_pos hmax]

/-- A Sending tick past the ACK timeout with retries left restarts the
block: fresh sent map with BEGIN marked, re-emitted BEGIN,
`next_seq_to_send = 1`, refreshed `last_send_time`, and the whole block
counted once more in `total_packets_resent`. -/
theorem rdt_tick_timeout_restart_eq (crcF : CrcFn) (channel_idx : Nat)
    (now : Int) (ch : RdtChannel) (stats : RssiStats)
    (hq : ¬(ch.tx_queue = none ∨ ch.tx_queue_length = 0 ∨ ch.rx_queue = none))
    (hsending : ch.tx_ctrl.sending = true)
    (hlate : now - ch.tx_ctrl.last_send_time > (RDT_ACK_TIMEOUT_MS : Int) * 1000)
    (hmax : ¬ RDT_MAX_RETRY_COUNT ≤ (ch.tx_ctrl.retry_count + 1) % 256) :
    rdt_process_tx_channel crcF channel_idx now ch stats =
      ⟨{ ch with tx_ctrl := { ch.tx_ctrl with
          retry_count := (ch.tx_ctrl.retry_count + 1) % 256,
          packet_sent_map :=
            some ((List.replicate ch.tx_ctrl.total_packets false).set 0 true),
          next_seq_to_send := 1, last_send_time := now } },
       { stats with total_packets_resent := addU32 stats.total_packets_resent ch.tx_ctrl.total_packets },
       (rdt_send_one_packet crcF channel_idx 0 RDT_MSG_BEGIN
         (size_arr_le ch.tx_ctrl.current_size) 4).toList,
       [], false⟩ := by
  simp only [rdt_process_tx_channel, rdt_restart_tx_block]
  rw [if_neg hq]
  simp [hsending, if_pos hlate, if_neg hmax]

/-- A Sending tick inside the ACK window drains the unsent sequence
numbers through `rdt_tx_drain`. -/
theorem rdt_tick_drain_eq (crcF : CrcFn) (channel_idx : Nat)
    (now : Int) (ch : RdtChannel) (stats : RssiStats)
    (hq : ¬(ch.tx_queue = none ∨ ch.tx_queue_length = 0 ∨ ch.rx_queue = none))
    (hsending : ch.tx_ctrl.sending = true)
    (hontime : ¬ now - ch.tx_ctrl.last_send_time > (RDT_ACK_TIMEOUT_MS : Int) * 1000) :
    rdt_process_tx_channel crcF channel_idx now ch stats =
      ⟨{ ch with tx_ctrl := { ch.tx_ctrl with
          packet_sent_map := some (rdt_tx_drain crcF channel_idx now
            ch.tx_ctrl.current_size ch.tx_ctrl.total_packets
            (ch.tx_ctrl.tx_buffer.getD [])
            (ch.tx_ctrl.total_packets - ch.tx_ctrl.next_seq_to_send)
            ch.tx_ctrl.next_seq_to_send (ch.tx_ctrl.packet_sent_map.getD [])
            ch.tx_ctrl.last_send_time).1,
          next_seq_to_send := (rdt_tx_drain crcF channel_idx now
            ch.tx_ctrl.current_size ch.tx_ctrl.total_packets
            (ch.tx_ctrl.tx_buffer.getD [])
            (ch.tx_ctrl.total_packets - ch.tx_ctrl.next_seq_to_send)
            ch.tx_ctrl.next_seq_to_send (ch.tx_ctrl.packet_sent_map.getD [])
            ch.tx_ctrl.last_send_time).2.1,
          last_send_time := (rdt_tx_drain crcF channel_idx now
            ch.tx_ctrl.current_size ch.tx_ctrl.total_packets
            (ch.tx_ctrl.tx_buffer.getD [])
            (ch.tx_ctrl.total_packets - ch.tx_ctrl.next_seq_to_send)
            ch.tx_ctrl.next_seq_to_send (ch.tx_ctrl.packet_sent_map.getD [])
            ch.tx_ctrl.last_send_time).2.2.1 } },
       stats,
       (rdt_tx_drain crcF channel_idx now
         ch.tx_ctrl.current_size ch.tx_ctrl.total_packets
         (ch.tx_ctrl.tx_buffer.getD [])
         (ch.tx_ctrl.total_packets - ch.tx_ctrl.next_seq_to_send)
         ch.tx_ctrl.next_seq_to_send (ch.tx_ctrl.packet_sent_map.getD [])
         ch.tx_ctrl.last_send_time).2.2.2,
       [], false⟩ := by
  simp only [rdt_process_tx_channel]
  rw [if_neg hq]
  simp [hsending, if_neg hontime]

/-! ## Claim theorems -/

/-- C3: processing a DATA packet whose sequence number is already
marked in `packet_received_map` leaves `rx_buffer`, `packets_received`
and the map itself unchanged, so duplicates never advance
`packets_received` past `total_packets`. -/
theorem rdt_duplicate_data_idempotent (crcF : CrcFn) (channel_idx : Nat)
    (now : Int) (ch : RdtChannel) (stats : RssiStats) (pkt : RdtPacket)
    (hsvc : pkt.service_code = RDT_MSG_DATA)
    (hmarked : (ch.rx_ctrl.packet_received_map.getD []).getD pkt.seq_num false = true) :
    (rdt_process_received_packet crcF channel_idx now ch stats pkt).ch.rx_ctrl.rx_buffer
        = ch.rx_ctrl.rx_buffer ∧
    (rdt_process_received_packet crcF channel_idx now ch stats pkt).ch.rx_ctrl.packets_received
        = ch.rx_ctrl.packets_received ∧
    (rdt_process_received_packet crcF channel_idx now ch stats pkt).ch.rx_ctrl.packet_received_map
        = ch.rx_ctrl.packet_received_map := by
  simp only [rdt_process_received_packet, hsvc, RDT_MSG_DATA, RDT_MSG_BEGIN]
  split_ifs <;> simp_all

/-- C3 witness: a concrete duplicate DATA packet on a live reassembly is
dropped without touching the buffer or the counter. -/
theorem rdt_duplicate_data_idempotent_witness :
    (rdt_process_received_packet (fun _ _ _ _ => 0) 2 50
      { rdt_channel_default with
        rx_queue := some [], tx_queue := some [], tx_queue_length := 5,
        rx_queue_length := 5,
        rx_ctrl := ⟨true, 5, 3, 2, some [1, 2, 3, 4, 5], some [true, true, false], 0⟩ }
      ⟨0, 0⟩ ⟨2, 1, RDT_MSG_DATA, List.replicate 192 7, 0⟩).ch.rx_ctrl.rx_buffer
        = some [1, 2, 3, 4, 5] := by
  have h := rdt_duplicate_data_idempotent (fun _ _ _ _ => 0) 2 50
    { rdt_channel_default with
      rx_queue := some [], tx_queue := some [], tx_queue_length := 5,
      rx_queue_length := 5,
      rx_ctrl := ⟨true, 5, 3, 2, some [1, 2, 3, 4, 5], some [true, true, false], 0⟩ }
    ⟨0, 0⟩ ⟨2, 1, RDT_MSG_DATA, List.replicate 192 7, 0⟩ rfl (by decide)
  exact h.1

/-- C9: `Rdt_SendBlock` returns 0 exactly when the block was appended
to the channel's tx queue; on every failure (bad channel, `NULL` data,
zero size, missing queue, full queue) it returns 1 and leaves every
channel untouched — the embedded function contains no `free`, so
ownership of the block stays with the caller. -/
theorem Rdt_SendBlock_ownership (chans : List RdtChannel) (channel : Nat)
    (data_ptr : Option (List Nat)) (size : Nat) (user_ctx : Option Nat) :
    ((Rdt_SendBlock chans channel data_ptr size user_ctx).1 = 0 ∨
      (Rdt_SendBlock chans channel data_ptr size user_ctx).1 = 1) ∧
    ((Rdt_SendBlock chans channel data_ptr size user_ctx).1 = 1 ↔
      RDT_MAX_CHANNELS ≤ channel ∨ data_ptr = none ∨ size = 0 ∨
      (chans.getD channel rdt_channel_default).tx_queue = none ∨
      ∃ q, (chans.getD channel rdt_channel_default).tx_queue = some q ∧
        (chans.getD channel rdt_channel_default).tx_queue_length ≤ q.length) ∧
    ((Rdt_SendBlock chans channel data_ptr size user_ctx).1 = 1 →
      (Rdt_SendBlock chans channel data_ptr size user_ctx).2 = chans) ∧
    ((Rdt_SendBlock chans channel data_ptr size user_ctx).1 = 0 →
      ∃ q, (chans.getD channel rdt_channel_default).tx_queue = some q ∧
        (Rdt_SendBlock chans channel data_ptr size user_ctx).2 =
          chans.set channel
            { chans.getD channel rdt_channel_default with
              tx_queue := some (q ++
                [{ data_ptr := data_ptr.getD [], data_size := size,
                   user_ctx := user_ctx }]) }) := by
  by_cases h1 : channel ≥ RDT_MAX_CHANNELS
  · have e : Rdt_SendBlock chans channel data_ptr size user_ctx = (1, chans) := by
      unfold Rdt_SendBlock
      rw [if_pos h1]
    rw [e]
    refine ⟨Or.inr rfl, ⟨fun _ => Or.inl h1, fun _ => rfl⟩, fun _ => rfl, ?_⟩
    intro h
    exact absurd h one_ne_zero
  · by_cases h2 : data_ptr = none ∨ size = 0
    · have e : Rdt_SendBlock chans channel data_ptr size user_ctx = (1, chans) := by
        unfold Rdt_SendBlock
        rw [if_neg h1, if_pos h2]
      rw [e]
      refine ⟨Or.inr rfl, ⟨fun _ => ?_, fun _ => rfl⟩, fun _ => rfl, ?_⟩
      · rcases h2 with h2 | h2
        · exact Or.inr (Or.inl h2)
        · exact Or.inr (Or.inr (Or.inl h2))
      · intro h
        exact absurd h one_ne_zero
    · rcases hq : (chans.getD channel rdt_channel_default).tx_queue with _ | q
      · have e : Rdt_SendBlock chans channel data_ptr size user_ctx = (1, chans) := by
          unfold Rdt_SendBlock
          rw [if_neg h1, if_neg h2]
          simp only [hq]
        rw [e]
        refine ⟨Or.inr rfl, ⟨fun _ => Or.inr (Or.inr (Or.inr (Or.inl rfl))),
          fun _ => rfl⟩, fun _ => rfl, ?_⟩
        intro h
        exact absurd h one_ne_zero
      · by_cases h3 : (chans.getD channel rdt_channel_default).tx_queue_length ≤ q.length
        · have e : Rdt_SendBlock chans channel data_ptr size user_ctx = (1, chans) := by
            unfold Rdt_SendBlock
            rw [if_neg h1, if_neg h2]
            simp only [hq]
            rw [if_pos h3]
          rw [e]
          refine ⟨Or.inr rfl, ⟨fun _ => Or.inr (Or.inr (Or.inr (Or.inr ⟨q, rfl, h3⟩))),
            fun _ => rfl⟩, fun _ => rfl, ?_⟩
          intro h
          exact absurd h one_ne_zero
        · have e : Rdt_SendBlock chans channel data_ptr size user_ctx =
              (0, chans.set channel
                { chans.getD channel rdt_channel_default with
                  tx_queue := some (q ++
                    [{ data_ptr := data_ptr.getD [], data_size := size,
                       user_ctx := user_ctx }]) }) := by
            unfold Rdt_SendBlock
            rw [if_neg h1, if_neg h2]
            simp only [hq]
            rw [if_neg h3]
          rw [e]
          refine ⟨Or.inl rfl, ⟨fun h => absurd h.symm one_ne_zero, fun hd => ?_⟩,
            fun h => absurd h.symm one_ne_zero, fun _ => ⟨q, rfl, rfl⟩⟩
          exfalso
          rcases hd with hd | hd | hd | hd | ⟨q2, hq2, hl2⟩
          · exact h1 hd
          · exact h2 (Or.inl hd)
          · exact h2 (Or.inr hd)
          · exact Option.noConfusion hd
          · injection hq2 with h4
            exact h3 (by rw [h4]; exact hl2)

/-- C9 witness: the theorem applied to a concrete full-queue channel. -/
theorem Rdt_SendBlock_ownership_witness :
    ((Rdt_SendBlock
        [{ rdt_channel_default with
           tx_queue := some [⟨[9], 1, none⟩], tx_queue_length := 1 }]
        0 (some [1, 2]) 2 none).1 = 0 ∨
      (Rdt_SendBlock
        [{ rdt_channel_default with
           tx_queue := some [⟨[9], 1, none⟩], tx_queue_length := 1 }]
        0 (some [1, 2]) 2 none).1 = 1) ∧
    ((Rdt_SendBlock
        [{ rdt_channel_default with
           tx_queue := some [⟨[9], 1, none⟩], tx_queue_length := 1 }]
        0 (some [1, 2]) 2 none).1 = 1 →
      (Rdt_SendBlock
        [{ rdt_channel_default with
           tx_queue := some [⟨[9], 1, none⟩], tx_queue_length := 1 }]
        0 (some [1, 2]) 2 none).2 =
        [{ rdt_channel_default with
           tx_queue := some [⟨[9], 1, none⟩], tx_queue_length := 1 }]) := by
  have h := Rdt_SendBlock_ownership
    [{ rdt_channel_default with
       tx_queue := some [⟨[9], 1, none⟩], tx_queue_length := 1 }]
    0 (some [1, 2]) 2 none
  exact ⟨h.1, h.2.2.1⟩

/-- C10: when an END packet completes a block, the subscriber
notification (`esp_event_post_to`) is posted unconditionally — in
particular also when the rx queue is full, in which case the assembled
block is dropped and freed and the queue is left unchanged; and a
consumer woken on an empty queue gets nothing from
`Rdt_ReceiveBlock`. -/
theorem rdt_end_notify_unconditional (crcF : CrcFn) (channel_idx : Nat)
    (now : Int) (ch : RdtChannel) (stats : RssiStats) (pkt : RdtPacket)
    (hch : ¬ channel_idx ≥ RDT_MAX_CHANNELS)
    (hq : ¬(ch.tx_queue = none ∨ ch.tx_queue_length = 0 ∨ ch.rx_queue = none))
    (hcrc : rdt_calc_crc crcF pkt = pkt.crc)
    (hsvc : pkt.service_code = RDT_MSG_END)
    (hrecv : ch.rx_ctrl.receiving = true)
    (hseq : pkt.seq_num = ch.rx_ctrl.total_packets - 1)
    (hmarked : (ch.rx_ctrl.packet_received_map.getD []).getD pkt.seq_num false = false)
    (hdone : ch.rx_ctrl.packets_received + 1 = ch.rx_ctrl.total_packets) :
    (rdt_process_received_packet crcF channel_idx now ch stats pkt).notified = true ∧
    (ch.rx_queue_length ≤ (ch.rx_queue.getD []).length →
      (rdt_process_received_packet crcF channel_idx now ch stats pkt).ch.rx_queue
          = ch.rx_queue ∧
      HeapFree.rxBuf (ch.rx_ctrl.rx_buffer.getD []) ∈
        (rdt_process_received_packet crcF channel_idx now ch stats pkt).freed) ∧
    (∀ (chans : List RdtChannel) (channel : Nat),
      (chans.getD channel rdt_channel_default).rx_queue = some [] →
      (Rdt_ReceiveBlock chans channel).1 = none) := by
  rw [rdt_recv_end_complete_eq crcF channel_idx now ch stats pkt
    hch hq hcrc hsvc hrecv hseq hmarked hdone]
  refine ⟨rfl, ?_, ?_⟩
  · intro hfull
    rw [if_neg (not_lt.mpr hfull)]
    constructor
    · rcases hrq : ch.rx_queue with _ | rq
      · exact absurd (Or.inr (Or.inr hrq)) hq
      · simp [hrq]
    · simp [hfull]
  · intro chans channel hempty
    unfold Rdt_ReceiveBlock
    split_ifs with hc
    · rfl
    · simp only [hempty]

/-- C10 witness: a concrete completing END on a channel whose rx queue
is full is notified while the queue stays as it was. -/
theorem rdt_end_notify_unconditional_witness :
    (rdt_process_received_packet (fun _ _ _ _ => 0) 1 50
      { rdt_channel_default with
        rx_queue := some [⟨[9], 1, none⟩], rx_queue_length := 1,
        tx_queue := some [], tx_queue_length := 5,
        rx_ctrl := ⟨true, 1, 3, 2, some [5], some [true, true, false], 0⟩ }
      ⟨0, 0⟩ ⟨1, 2, RDT_MSG_END, List.replicate 192 0, 0⟩).notified = true := by
  have h := rdt_end_notify_unconditional (fun _ _ _ _ => 0) 1 50
    { rdt_channel_default with
      rx_queue := some [⟨[9], 1, none⟩], rx_queue_length := 1,
      tx_queue := some [], tx_queue_length := 5,
      rx_ctrl := ⟨true, 1, 3, 2, some [5], some [true, true, false], 0⟩ }
    ⟨0, 0⟩ ⟨1, 2, RDT_MSG_END, List.replicate 192 0, 0⟩
    (by decide) (by decide) rfl rfl rfl (by decide) (by decide) (by decide)
  exact h.1

/-- C6: a `w_param_request_blocking` call that finds another request in
progress returns `-2` and writes `0xFE` (254) without touching any
recorded request state; a call before initialization writes `0xFF`
(255); a send failure writes `0xFD` (253) and clears the in-progress
flag. -/
theorem w_param_single_in_flight :
    (∀ (st : WParamClient) (mt sog : Nat) (value : List Nat)
        (resp_data : Option (List Nat)) (resp_size : Option Nat)
        (rc_ptr send_ok : Bool),
      st.g_initialized = true → st.g_request_in_progress = true →
      (w_param_request_begin st mt sog value resp_data resp_size rc_ptr send_ok).st = st ∧
      (w_param_request_begin st mt sog value resp_data resp_size rc_ptr send_ok).ret = -2 ∧
      (w_param_request_begin st mt sog value resp_data resp_size rc_ptr send_ok).rc_out
          = (if rc_ptr then some 254 else none) ∧
      (w_param_request_begin st mt sog value resp_data resp_size rc_ptr send_ok).sent = []) ∧
    (∀ (st : WParamClient) (mt sog : Nat) (value : List Nat)
        (resp_data : Option (List Nat)) (resp_size : Option Nat)
        (rc_ptr send_ok : Bool),
      st.g_initialized = false →
      (w_param_request_begin st mt sog value resp_data resp_size rc_ptr send_ok).st = st ∧
      (w_param_request_begin st mt sog value resp_data resp_size rc_ptr send_ok).ret = -1 ∧
      (w_param_request_begin st mt sog value resp_data resp_size rc_ptr send_ok).rc_out
          = (if rc_ptr then some 255 else none)) ∧
    (∀ (st : WParamClient) (mt sog : Nat) (value : List Nat)
        (resp_data : Option (List Nat)) (resp_size : Option Nat) (rc_ptr : Bool),
      st.g_initialized = true → st.g_request_in_progress = false →
      (w_param_request_begin st mt sog value resp_data resp_size rc_ptr false).ret = 1 ∧
      (w_param_request_begin st mt sog value resp_data resp_size rc_ptr false).rc_out
          = (if rc_ptr then some 253 else none) ∧
      (w_param_request_begin st mt sog value resp_data resp_size rc_ptr false).st.g_request_in_progress
          = false) := by
  refine ⟨?_, ?_, ?_⟩
  · intro st mt sog value resp_data resp_size rc_ptr send_ok hinit hbusy
    simp [w_param_request_begin, hinit, hbusy]
  · intro st mt sog value resp_data resp_size rc_ptr send_ok hinit
    simp [w_param_request_begin, hinit]
  · intro st mt sog value resp_data resp_size rc_ptr hinit hidle
    simp [w_param_request_begin, hinit, hidle]

/-- C6 witness: the theorem applied to a concrete busy client state. -/
theorem w_param_single_in_flight_witness :
    (w_param_request_begin ⟨true, true, 33, 0, none, some 8, 255, 0, false⟩
        40 1 [1] none none true true).st
      = ⟨true, true, 33, 0, none, some 8, 255, 0, false⟩ ∧
    (w_param_request_begin ⟨true, true, 33, 0, none, some 8, 255, 0, false⟩
        40 1 [1] none none true true).ret = -2 := by
  have h := w_param_single_in_flight.1 ⟨true, true, 33, 0, none, some 8, 255, 0, false⟩
    40 1 [1] none none true true rfl rfl
  exact ⟨h.1, h.2.1⟩

/-- C5 counterexample: for a GET of the unregistered type `0x7E` the
server's reply frame echoes the request op (`set_or_get = 0`, there is
no RESP opcode) and is 4 bytes long (`sizeof` of a pointer), not a
3-byte header with empty data. -/
theorem w_param_unknown_type_resp_counterexample :
    (w_param_process_packet [] ⟨true, false, 0, 0, none, none, 255, 0, false⟩
        [126, 0, 0] 0).sent = [[126, 0, 1, 0]] ∧
    [126, 0, 1, 0].getD 1 0 ≠ 2 := by
  exact ⟨rfl, by decide⟩

/-- C5 (amended): a GET/SET for a `message_type` absent from the table
makes the server reply with a frame that echoes the request op and
carries `return_code = 1` followed by one uninitialized byte (the block
size is `sizeof(hdr_out)`, the pointer size 4, not the 3-byte header);
the client that issued the request processes this reply through the
same not-found branch, records `return_code = 1`, writes 0 to
`*resp_size`, and its blocking call completes with return value 0. -/
theorem w_param_unknown_type_reply (tableS tableC : List WParamDescriptor)
    (stS stC : WParamClient) (mt sog : Nat) (value : List Nat)
    (resp_data : List Nat) (usz : Nat) (junkS junkC : Nat)
    (hfindS : find_param_descriptor tableS mt = none)
    (hfindC : find_param_descriptor tableC mt = none)
    (hsog : sog = W_PARAM_GET ∨ sog = W_PARAM_SET)
    (hinit : stC.g_initialized = true)
    (hidle : stC.g_request_in_progress = false) :
    (w_param_process_packet tableS stS ([mt, sog, 0] ++ value) junkS).sent
        = [[mt, sog, 1, junkS]] ∧
    ((w_param_process_packet tableC
        (w_param_request_begin stC mt sog value (some resp_data) (some usz) true true).st
        [mt, sog, 1, junkS] junkC).st.g_response_sem = true ∧
      (w_param_process_packet tableC
        (w_param_request_begin stC mt sog value (some resp_data) (some usz) true true).st
        [mt, sog, 1, junkS] junkC).st.g_resp_return_code = 1 ∧
      (w_param_process_packet tableC
        (w_param_request_begin stC mt sog value (some resp_data) (some usz) true true).st
        [mt, sog, 1, junkS] junkC).st.g_resp_user_size = some 0) ∧
    ((w_param_request_finish (w_param_process_packet tableC
        (w_param_request_begin stC mt sog value (some resp_data) (some usz) true true).st
        [mt, sog, 1, junkS] junkC).st true).ret = 0 ∧
      (w_param_request_finish (w_param_process_packet tableC
        (w_param_request_begin stC mt sog value (some resp_data) (some usz) true true).st
        [mt, sog, 1, junkS] junkC).st true).rc_out = some 1) := by
  have hbegin : (w_param_request_begin stC mt sog value (some resp_data)
      (some usz) true true).st =
      { stC with
        g_request_in_progress := true, g_req_msg_type := mt,
        g_req_set_or_get := sog, g_resp_return_code := 255,
        g_resp_data_len := 0, g_resp_user_buf := some resp_data,
        g_resp_user_size := some usz, g_response_sem := false } := by
    simp [w_param_request_begin, hinit, hidle]
  have hserver : (w_param_process_packet tableS stS ([mt, sog, 0] ++ value)
      junkS).sent = [[mt, sog, 1, junkS]] := by
    simp only [w_param_process_packet, sizeof_w_header_param, sizeof_param_hdr_ptr]
    rw [if_neg (by simp)]
    rcases hsog with h | h <;>
      simp [hfindS, h, W_PARAM_GET, W_PARAM_SET, List.getD] <;>
      split_ifs <;> rfl
  have hclient : (w_param_process_packet tableC
      (w_param_request_begin stC mt sog value (some resp_data) (some usz) true true).st
      [mt, sog, 1, junkS] junkC).st =
      { stC with
        g_request_in_progress := true, g_req_msg_type := mt,
        g_req_set_or_get := sog, g_resp_return_code := 1,
        g_resp_data_len := 0, g_resp_user_buf := some resp_data,
        g_resp_user_size := some 0, g_response_sem := true } := by
    rw [hbegin]
    simp only [w_param_process_packet, sizeof_w_header_param, sizeof_param_hdr_ptr]
    rw [if_neg (by simp)]
    rcases hsog with h | h <;>
      simp [hfindC, h, W_PARAM_GET, W_PARAM_SET, List.getD]
  refine ⟨hserver, ?_, ?_⟩
  · rw [hclient]
    exact ⟨rfl, rfl, rfl⟩
  · rw [hclient]
    simp [w_param_request_finish]

/-- C5 witness: the amended theorem at the concrete S5 scenario — type
`0x7E`, empty table, GET. -/
theorem w_param_unknown_type_reply_witness :
    (w_param_process_packet [] ⟨false, false, 0, 0, none, none, 0, 0, false⟩
        ([126, 0, 0] ++ []) 9).sent = [[126, 0, 1, 9]] ∧
    (w_param_request_finish (w_param_process_packet []
        (w_param_request_begin ⟨true, false, 0, 0, none, none, 255, 0, false⟩
          126 0 [] (some []) (some 32) true true).st
        [126, 0, 1, 9] 0).st true).ret = 0 := by
  have h := w_param_unknown_type_reply [] []
    ⟨false, false, 0, 0, none, none, 0, 0, false⟩
    ⟨true, false, 0, 0, none, none, 255, 0, false⟩
    126 0 [] [] 32 9 0 rfl rfl (Or.inl rfl) rfl rfl
  exact ⟨h.1, h.2.2.1⟩

/-- C7 counterexample: a READ request with `data_length_in = 0` on a
3-byte file returns all 3 bytes, not `min 0 4096 = 0` bytes — the code
substitutes the 4096-byte maximum for a zero requested length (and the
client's READ requests always carry `data_length = 0` on the wire). -/
theorem w_files_read_zero_len_counterexample :
    ¬ ((w_files_read_ideal (some [1, 2, 3]) 0 0).2.length ≤
        min 0 W_FILES_MAX_DATA) := by
  decide

/-- C7 (amended): on a healthy file system a READ of an existing file
at a non-sentinel offset succeeds with `return_code = OK` and returns
the file bytes from `offset`, truncated to `min data_len 4096` when
`data_len > 0` and to the 4096-byte maximum when `data_len = 0`; the
response `data_length` equals the number of bytes actually read; and
the branch reports `IO` only when the file-system port reports a seek
failure or an error flag. -/
theorem w_files_read_semantics :
    (∀ (contents : List Nat) (offset data_len : Nat),
      offset ≠ W_FILES_OFFSET_NONE →
      w_files_read_ideal (some contents) offset data_len =
        (W_FILES_OK, (contents.drop offset).take
          (if 0 < data_len then min data_len W_FILES_MAX_DATA
           else W_FILES_MAX_DATA))) ∧
    (∀ (port : WFilesReadPort) (request_id offset data_len : Nat),
      (w_files_read_response port request_id offset data_len).1.data_length =
        (w_files_read_response port request_id offset data_len).2.length ∧
      (w_files_read_response port request_id offset data_len).1.command =
        W_FILES_CMD_READ_RESP ∧
      (w_files_read_response port request_id offset data_len).1.request_id =
        request_id) ∧
    (∀ (port : WFilesReadPort) (offset data_len : Nat),
      (w_files_read_branch port offset data_len).1 = W_FILES_ERR_IO →
      (offset ≠ W_FILES_OFFSET_NONE ∧ port.seek_ok = false) ∨
        port.ferr = true) ∧
    (∀ (offset data_len : Nat),
      w_files_read_ideal none offset data_len = (W_FILES_ERR_NOFILE, [])) := by
  refine ⟨?_, ?_, ?_, ?_⟩
  · intro contents offset data_len hoff
    have hlen : (if W_FILES_MAX_DATA <
          (if 0 < data_len then data_len else W_FILES_MAX_DATA) then
            W_FILES_MAX_DATA
          else if 0 < data_len then data_len else W_FILES_MAX_DATA) =
        (if 0 < data_len then min data_len W_FILES_MAX_DATA
          else W_FILES_MAX_DATA) := by
      split_ifs <;> omega
    simp only [w_files_read_ideal, w_files_read_branch, idealReadPort]
    simp [hoff, W_FILES_OK, W_FILES_ERR_IO, hlen]
  · intro port request_id offset data_len
    exact ⟨rfl, rfl, rfl⟩
  · intro port offset data_len hio
    by_cases hf : port.ferr = true
    · exact Or.inr hf
    by_cases hs : offset ≠ W_FILES_OFFSET_NONE ∧ port.seek_ok = false
    · exact Or.inl hs
    exfalso
    simp only [w_files_read_branch] at hio
    split_ifs at hio <;>
      simp_all [W_FILES_OK, W_FILES_ERR_IO, W_FILES_ERR_NOFILE]
  · intro offset data_len
    simp [w_files_read_ideal, w_files_read_branch, idealReadPort]

/-- C7 witness: the S6 scenario — a 100-byte file read at offset 50
with a 200-byte budget yields exactly 50 bytes and `OK` (the wire
request carries `data_length 0`, the 4096-byte default). -/
theorem w_files_read_semantics_witness :
    w_files_read_ideal (some (List.replicate 100 7)) 50 0 =
      (W_FILES_OK, List.replicate 50 7) ∧
    (w_files_read_ideal (some (List.replicate 100 7)) 50 0).2.length = 50 := by
  have h := w_files_read_semantics.1 (List.replicate 100 7) 50 0 (by decide)
  rw [h]
  exact ⟨by decide, by decide⟩

/-! ## Counting lemmas for the statistics claim -/

/-- A NACK while sending triggers the retransmission loop over the
listed sequence numbers. -/
theorem rdt_recv_nack_eq (crcF : CrcFn) (channel_idx : Nat) (now : Int)
    (ch : RdtChannel) (stats : RssiStats) (pkt : RdtPacket)
    (hch : ¬ channel_idx ≥ RDT_MAX_CHANNELS)
    (hq : ¬(ch.tx_queue = none ∨ ch.tx_queue_length = 0 ∨ ch.rx_queue = none))
    (hcrc : rdt_calc_crc crcF pkt = pkt.crc)
    (hsvc : pkt.service_code = RDT_MSG_NACK)
    (hsending : ch.tx_ctrl.sending = true) :
    rdt_process_received_packet crcF channel_idx now ch stats pkt =
      ⟨ch, { stats with total_packets_resent :=
          (rdt_nack_resend crcF channel_idx ch.tx_ctrl pkt.payload 96 0
            stats.total_packets_resent).1 },
       (rdt_nack_resend crcF channel_idx ch.tx_ctrl pkt.payload 96 0
         stats.total_packets_resent).2,
       [], false⟩ := by
  simp only [rdt_process_received_packet]
  rw [if_neg hch, if_neg hq, if_neg (not_not_intro hcrc)]
  simp [hsvc, hsending, RDT_MSG_BEGIN, RDT_MSG_DATA, RDT_MSG_END,
    RDT_MSG_ASK, RDT_MSG_NACK]

/-- The number of unreceived packets the NACK scan will visit starting
at index `i` with `fuel` indexes left. -/
def rdt_missing_count (map : List Bool) (i fuel : Nat) : Nat :=
  ((List.range' i fuel).filter fun j => map.getD j false = false).length

/-- The byte encoding of a list of sequence numbers as a NACK payload
prefix: two little-endian bytes per entry. -/
def encode_nack_seqs (seqs : List Nat) : List Nat :=
  (seqs.map fun s => [s % 256, s / 256 % 256]).flatten

/-- The scan loop of `rdt_send_nack_for_missing` adds one to the resend
counter for every missing packet it visits, as long as the encoded list
fits the payload. -/
theorem rdt_nack_scan_resent (map : List Bool) :
    ∀ (fuel i idx : Nat) (acc : List Nat) (r : Nat),
    idx + 2 * rdt_missing_count map i fuel ≤ RDT_PACKET_PAYLOAD_LEN →
    r < U32 →
    (rdt_nack_scan map fuel i idx acc r).2.2 =
      (r + rdt_missing_count map i fuel) % U32 := by
  intro fuel
  induction fuel with
  | zero =>
    intro i idx acc r _ hr
    simp [rdt_nack_scan, rdt_missing_count, Nat.mod_eq_of_lt hr]
  | succ n ih =>
    intro i idx acc r hfit hr
    cases hmb : map.getD i false with
    | true =>
      have hsplit : rdt_missing_count map i (n + 1) =
          rdt_missing_count map (i + 1) n := by
        unfold rdt_missing_count
        rw [List.range'_succ, List.filter_cons,
          if_neg (by simp only [List.getD_eq_getElem?_getD] at hmb; simp [hmb])]
      rw [hsplit] at hfit ⊢
      rw [show rdt_nack_scan map (n + 1) i idx acc r =
          rdt_nack_scan map n (i + 1) idx acc r from by
        conv_lhs => rw [rdt_nack_scan]
        rw [hmb]
        simp]
      exact ih (i + 1) idx acc r hfit hr
    | false =>
      have hsplit : rdt_missing_count map i (n + 1) =
          1 + rdt_missing_count map (i + 1) n := by
        unfold rdt_missing_count
        rw [List.range'_succ, List.filter_cons,
          if_pos (by simp only [List.getD_eq_getElem?_getD] at hmb; simp [hmb])]
        simp [Nat.add_comm]
      rw [hsplit] at hfit ⊢
      have hstep : idx + 2 ≤ RDT_PACKET_PAYLOAD_LEN := by
        simp only [RDT_PACKET_PAYLOAD_LEN] at hfit ⊢
        omega
      rw [show rdt_nack_scan map (n + 1) i idx acc r =
          rdt_nack_scan map n (i + 1) (idx + 2)
            (acc ++ [i % 256, i / 256 % 256]) (addU32 r 1) from by
        conv_lhs => rw [rdt_nack_scan]
        rw [hmb]
        simp [if_pos hstep]]
      rw [ih (i + 1) (idx + 2) (acc ++ [i % 256, i / 256 % 256]) (addU32 r 1)
        (by omega) (Nat.mod_lt _ (by simp [U32]))]
      simp only [addU32, U32]
      omega

/-- `rdt_send_nack_for_missing` counts every missing packet into
`total_packets_resent` (one per listed sequence number). -/
theorem rdt_send_nack_resent_count (crcF : CrcFn) (channel_idx : Nat)
    (rx : RdtChannelRx) (stats : RssiStats)
    (hfit : 2 * rdt_missing_count (rx.packet_received_map.getD []) 0
      rx.total_packets ≤ RDT_PACKET_PAYLOAD_LEN)
    (hr : stats.total_packets_resent < U32) :
    (rdt_send_nack_for_missing crcF channel_idx rx stats).1.total_packets_resent
      = (stats.total_packets_resent + rdt_missing_count
          (rx.packet_received_map.getD []) 0 rx.total_packets) % U32 := by
  simp only [rdt_send_nack_for_missing]
  exact rdt_nack_scan_resent (rx.packet_received_map.getD [])
    rx.total_packets 0 0 [] stats.total_packets_resent (by omega) hr

/-- One NACK loop iteration for an in-range listed sequence number
counts one resend and emits exactly one packet. -/
theorem rdt_nack_resend_step_spec (crcF : CrcFn) (channel_idx : Nat)
    (tx : RdtChannelTx) (missing_seq r : Nat)
    (hch : channel_idx < RDT_MAX_CHANNELS)
    (hin : missing_seq < tx.total_packets)
    (htot : tx.total_packets = (tx.current_size + 191) / 192 + 2) :
    (rdt_nack_resend_step crcF channel_idx tx missing_seq r).1 = addU32 r 1 ∧
    (rdt_nack_resend_step crcF channel_idx tx missing_seq r).2.length = 1 := by
  unfold rdt_nack_resend_step
  rw [if_pos hin]
  by_cases hs0 : missing_seq = 0
  · simp [hs0, rdt_send_one_packet, RDT_PACKET_PAYLOAD_LEN,
      if_neg (not_le.mpr hch)]
  · rw [if_neg hs0]
    by_cases hslast : missing_seq = tx.total_packets - 1
    · simp [hslast, rdt_send_one_packet, RDT_PACKET_PAYLOAD_LEN,
        if_neg (not_le.mpr hch)]
    · rw [if_neg hslast]
      have hoff : (missing_seq - 1) * RDT_PACKET_PAYLOAD_LEN < tx.current_size := by
        have hq192 := Nat.div_add_mod (tx.current_size + 191) 192
        have hr192 : (tx.current_size + 191) % 192 < 192 :=
          Nat.mod_lt _ (by norm_num)
        simp only [RDT_PACKET_PAYLOAD_LEN]
        omega
      have hclen : rdt_data_chunk_len tx.current_size
          ((missing_seq - 1) * RDT_PACKET_PAYLOAD_LEN) ≤ RDT_PACKET_PAYLOAD_LEN := by
        simp only [rdt_data_chunk_len, sub32, U32, RDT_PACKET_PAYLOAD_LEN] at hoff ⊢
        split_ifs with hov
        · omega
        · omega
      simp [rdt_send_one_packet, if_neg (not_le.mpr hch),
        if_neg (not_lt.mpr hclen)]

/-- The retransmission loop of the NACK branch: for a payload listing
`seqs` (little-endian pairs terminated by `0xFFFF`), each in range,
the resend counter grows by one per listed packet and exactly one
packet is emitted per listed sequence number. -/
theorem rdt_nack_resend_count (crcF : CrcFn) (channel_idx : Nat)
    (tx : RdtChannelTx) :
    ∀ (seqs : List Nat) (fuel i r : Nat) (pre pad : List Nat),
    pre.length = 2 * i →
    seqs.length ≤ fuel →
    (∀ s ∈ seqs, s < tx.total_packets ∧ s < 65535) →
    channel_idx < RDT_MAX_CHANNELS →
    tx.total_packets = (tx.current_size + 191) / 192 + 2 →
    r < U32 →
    (rdt_nack_resend crcF channel_idx tx
        (pre ++ (encode_nack_seqs seqs ++ ([255, 255] ++ pad))) fuel i r).1
      = (r + seqs.length) % U32 ∧
    (rdt_nack_resend crcF channel_idx tx
        (pre ++ (encode_nack_seqs seqs ++ ([255, 255] ++ pad))) fuel i r).2.length
      = seqs.length := by
  intro seqs
  induction seqs with
  | nil =>
    intro fuel i r pre pad hpre hlen hmem hch htot hr
    rcases fuel with _ | fuel
    · simp [rdt_nack_resend, Nat.mod_eq_of_lt hr]
    · have h0 : (pre ++ (encode_nack_seqs [] ++ ([255, 255] ++ pad))).getD
          (2 * i) 0 = 255 := by
        rw [List.getD_append_right _ _ _ _ (by omega), hpre, Nat.sub_self]
        rfl
      have h1 : (pre ++ (encode_nack_seqs [] ++ ([255, 255] ++ pad))).getD
          (2 * i + 1) 0 = 255 := by
        rw [List.getD_append_right _ _ _ _ (by omega), hpre,
          show 2 * i + 1 - 2 * i = 1 from by omega]
        rfl
      rw [show rdt_nack_resend crcF channel_idx tx
          (pre ++ (encode_nack_seqs [] ++ ([255, 255] ++ pad)))
          (fuel + 1) i r = (r, []) from by
        conv_lhs => rw [rdt_nack_resend]
        rw [h0, h1]
        norm_num]
      simp [Nat.mod_eq_of_lt hr]
  | cons s rest ih =>
    intro fuel i r pre pad hpre hlen hmem hch htot hr
    rcases fuel with _ | fuel
    · simp at hlen
    obtain ⟨hslt, hs65⟩ := hmem s (List.mem_cons_self s rest)
    have henc : encode_nack_seqs (s :: rest) =
        s % 256 :: s / 256 % 256 :: encode_nack_seqs rest := by
      simp [encode_nack_seqs]
    have hassoc : pre ++ (encode_nack_seqs (s :: rest) ++ ([255, 255] ++ pad)) =
        (pre ++ [s % 256, s / 256 % 256]) ++
          (encode_nack_seqs rest ++ ([255, 255] ++ pad)) := by
      rw [henc]
      simp
    have h0 : (pre ++ (encode_nack_seqs (s :: rest) ++ ([255, 255] ++ pad))).getD
        (2 * i) 0 = s % 256 := by
      rw [List.getD_append_right _ _ _ _ (by omega), hpre, Nat.sub_self, henc]
      rfl
    have h1 : (pre ++ (encode_nack_seqs (s :: rest) ++ ([255, 255] ++ pad))).getD
        (2 * i + 1) 0 = s / 256 % 256 := by
      rw [List.getD_append_right _ _ _ _ (by omega), hpre,
        show 2 * i + 1 - 2 * i = 1 from by omega, henc]
      rfl
    have hdec : s % 256 + 256 * (s / 256 % 256) = s := by omega
    have hne : ¬ s = 65535 := by omega
    rw [show rdt_nack_resend crcF channel_idx tx
        (pre ++ (encode_nack_seqs (s :: rest) ++ ([255, 255] ++ pad)))
        (fuel + 1) i r =
        ((rdt_nack_resend crcF channel_idx tx
            (pre ++ (encode_nack_seqs (s :: rest) ++ ([255, 255] ++ pad)))
            fuel (i + 1)
            (rdt_nack_resend_step crcF channel_idx tx s r).1).1,
          (rdt_nack_resend_step crcF channel_idx tx s r).2 ++
            (rdt_nack_resend crcF channel_idx tx
              (pre ++ (encode_nack_seqs (s :: rest) ++ ([255, 255] ++ pad)))
              fuel (i + 1)
              (rdt_nack_resend_step crcF channel_idx tx s r).1).2) from by
      conv_lhs => rw [rdt_nack_resend]
      rw [h0, h1, hdec, if_neg hne]]
    have hstep := rdt_nack_resend_step_spec crcF channel_idx tx s r hch hslt htot
    have hr2lt : addU32 r 1 < U32 := Nat.mod_lt _ (by simp [U32])
    have htail := ih fuel (i + 1) (addU32 r 1) (pre ++ [s % 256, s / 256 % 256]) pad
      (by simp [hpre]; omega) (by simpa using hlen)
      (fun x hx => hmem x (List.mem_cons_of_mem s hx)) hch htot hr2lt
    rw [← hassoc] at htail
    rw [hstep.1]
    refine ⟨?_, ?_⟩
    · rw [htail.1]
      simp only [addU32, U32, List.length_cons]
      omega
    · rw [List.length_append, hstep.2, htail.2]
      simp only [List.length_cons]
      omega

/-- C4 counterexample: dequeuing a 1-byte block emits exactly one
packet (the BEGIN) in that tick but advances `total_packets_sent` by 3
(the whole block's packet count), so the counter does not grow by one
per transmitted packet. -/
theorem rdt_stats_per_packet_counterexample :
    ¬ ((rdt_process_tx_channel (fun _ _ _ _ => 0) 2 0
        { rdt_channel_default with
          rx_queue := some [], tx_queue := some [⟨[7], 1, none⟩],
          rx_queue_length := 1, tx_queue_length := 1, max_block_size := 512 }
        ⟨0, 0⟩).stats.total_packets_sent =
      0 + (rdt_process_tx_channel (fun _ _ _ _ => 0) 2 0
        { rdt_channel_default with
          rx_queue := some [], tx_queue := some [⟨[7], 1, none⟩],
          rx_queue_length := 1, tx_queue_length := 1, max_block_size := 512 }
        ⟨0, 0⟩).sent.length) := by
  decide

/-- C4 (amended): the packet counters are batched and kept on both
sides — `total_packets_sent` grows by the block's whole
`total_packets` when the sender dequeues a block (BEGIN emission) and
by the announced `total_packets` when a receiver processes a BEGIN;
`total_packets_resent` grows by `total_packets` on every ACK timeout,
by one per packet retransmitted by the sender's NACK handler, and by
one per missing packet recorded when the receiver emits a NACK. -/
theorem rdt_stats_batched_accounting :
    (∀ (crcF : CrcFn) (channel_idx : Nat) (now : Int) (ch : RdtChannel)
        (stats : RssiStats) (item : RdtBlockItem) (rest : List RdtBlockItem),
      ¬(ch.tx_queue = none ∨ ch.tx_queue_length = 0 ∨ ch.rx_queue = none) →
      ch.tx_ctrl.sending = false →
      ch.tx_queue.getD [] = item :: rest →
      (rdt_process_tx_channel crcF channel_idx now ch stats).stats.total_packets_sent
          = addU32 stats.total_packets_sent (rdt_total_packets item.data_size) ∧
      (rdt_process_tx_channel crcF channel_idx now ch stats).sent.length ≤ 1) ∧
    (∀ (crcF : CrcFn) (channel_idx : Nat) (now : Int) (ch : RdtChannel)
        (stats : RssiStats) (pkt : RdtPacket) (size : Nat),
      ¬ channel_idx ≥ RDT_MAX_CHANNELS →
      ¬(ch.tx_queue = none ∨ ch.tx_queue_length = 0 ∨ ch.rx_queue = none) →
      rdt_calc_crc crcF pkt = pkt.crc →
      pkt.service_code = RDT_MSG_BEGIN →
      pkt.payload = size_arr_le size ++
        List.replicate (RDT_PACKET_PAYLOAD_LEN - 4) 0 →
      1 ≤ size → size < U32 →
      (rdt_process_received_packet crcF channel_idx now ch stats pkt).stats.total_packets_sent
          = addU32 stats.total_packets_sent (rdt_total_packets size)) ∧
    (∀ (crcF : CrcFn) (channel_idx : Nat) (now : Int) (ch : RdtChannel)
        (stats : RssiStats),
      ¬(ch.tx_queue = none ∨ ch.tx_queue_length = 0 ∨ ch.rx_queue = none) →
      ch.tx_ctrl.sending = true →
      now - ch.tx_ctrl.last_send_time > (RDT_ACK_TIMEOUT_MS : Int) * 1000 →
      (rdt_process_tx_channel crcF channel_idx now ch stats).stats.total_packets_resent
          = addU32 stats.total_packets_resent ch.tx_ctrl.total_packets) ∧
    (∀ (crcF : CrcFn) (channel_idx : Nat) (now : Int) (ch : RdtChannel)
        (stats : RssiStats) (pkt : RdtPacket) (seqs : List Nat) (pad : List Nat),
      ¬ channel_idx ≥ RDT_MAX_CHANNELS →
      ¬(ch.tx_queue = none ∨ ch.tx_queue_length = 0 ∨ ch.rx_queue = none) →
      rdt_calc_crc crcF pkt = pkt.crc →
      pkt.service_code = RDT_MSG_NACK →
      ch.tx_ctrl.sending = true →
      pkt.payload = encode_nack_seqs seqs ++ ([255, 255] ++ pad) →
      seqs.length ≤ 96 →
      (∀ s ∈ seqs, s < ch.tx_ctrl.total_packets ∧ s < 65535) →
      ch.tx_ctrl.total_packets = (ch.tx_ctrl.current_size + 191) / 192 + 2 →
      stats.total_packets_resent < U32 →
      (rdt_process_received_packet crcF channel_idx now ch stats pkt).stats.total_packets_resent
          = (stats.total_packets_resent + seqs.length) % U32 ∧
      (rdt_process_received_packet crcF channel_idx now ch stats pkt).sent.length
          = seqs.length) ∧
    (∀ (crcF : CrcFn) (channel_idx : Nat) (rx : RdtChannelRx) (stats : RssiStats),
      2 * rdt_missing_count (rx.packet_received_map.getD []) 0 rx.total_packets
          ≤ RDT_PACKET_PAYLOAD_LEN →
      stats.total_packets_resent < U32 →
      (rdt_send_nack_for_missing crcF channel_idx rx stats).1.total_packets_resent
          = (stats.total_packets_resent + rdt_missing_count
              (rx.packet_received_map.getD []) 0 rx.total_packets) % U32) := by
  refine ⟨?_, ?_, ?_, ?_, ?_⟩
  · intro crcF channel_idx now ch stats item rest hq hidle hqueue
    rw [rdt_tick_dequeue_eq crcF channel_idx now ch stats item rest hq hidle hqueue]
    refine ⟨rfl, ?_⟩
    rcases hsp : rdt_send_one_packet crcF channel_idx 0 RDT_MSG_BEGIN
      (size_arr_le item.data_size) 4 with _ | p <;> simp [hsp]
  · intro crcF channel_idx now ch stats pkt size hch hq hcrc hsvc hpay hpos hlt
    rw [rdt_recv_begin_size_eq crcF channel_idx now ch stats pkt size
      hch hq hcrc hsvc hpay hpos hlt]
  · intro crcF channel_idx now ch stats hq hsending hlate
    by_cases hmax : RDT_MAX_RETRY_COUNT ≤ (ch.tx_ctrl.retry_count + 1) % 256
    · rw [rdt_tick_timeout_exhaust_eq crcF channel_idx now ch stats
        hq hsending hlate hmax]
    · rw [rdt_tick_timeout_restart_eq crcF channel_idx now ch stats
        hq hsending hlate hmax]
  · intro crcF channel_idx now ch stats pkt seqs pad hch hq hcrc hsvc hsending
      hpay hlen hmem htot hr
    rw [rdt_recv_nack_eq crcF channel_idx now ch stats pkt hch hq hcrc hsvc hsending]
    have hcount := rdt_nack_resend_count crcF channel_idx ch.tx_ctrl seqs 96 0
      stats.total_packets_resent [] pad (by simp) hlen hmem (by omega) htot hr
    rw [List.nil_append] at hcount
    rw [hpay]
    exact hcount
  · intro crcF channel_idx rx stats hfit hr
    exact rdt_send_nack_resent_count crcF channel_idx rx stats hfit hr

/-- C4 witness: the amended theorem applied to a concrete 1-byte block
dequeue (counter grows by the batch of 3) and to a concrete NACK
listing one missing DATA packet (counter grows by 1). -/
theorem rdt_stats_batched_accounting_witness :
    (rdt_process_tx_channel (fun _ _ _ _ => 0) 2 0
        { rdt_channel_default with
          rx_queue := some [], tx_queue := some [⟨[7], 1, none⟩],
          rx_queue_length := 1, tx_queue_length := 1, max_block_size := 512 }
        ⟨0, 0⟩).stats.total_packets_sent = addU32 0 (rdt_total_packets 1) ∧
    (rdt_send_nack_for_missing (fun _ _ _ _ => 0) 2
        ⟨true, 5, 3, 2, some [1, 2, 3, 4, 5], some [true, false, true], 0⟩
        ⟨0, 0⟩).1.total_packets_resent =
      (0 + rdt_missing_count [true, false, true] 0 3) % U32 := by
  constructor
  · exact (rdt_stats_batched_accounting.1 (fun _ _ _ _ => 0) 2 0
      { rdt_channel_default with
        rx_queue := some [], tx_queue := some [⟨[7], 1, none⟩],
        rx_queue_length := 1, tx_queue_length := 1, max_block_size := 512 }
      ⟨0, 0⟩ ⟨[7], 1, none⟩ [] (by decide) rfl rfl).1
  · exact rdt_stats_batched_accounting.2.2.2.2 (fun _ _ _ _ => 0) 2
      ⟨true, 5, 3, 2, some [1, 2, 3, 4, 5], some [true, false, true], 0⟩
      ⟨0, 0⟩ (by decide) (by decide)

/-! ## Pairing lemmas -/

/-- The pairing callback never touches the persisted MAC, the active
flag or the subscription. -/
theorem pairing_cb_preserves (my_mac : List Nat) (st : PairState)
    (blk : Option WHeaderSys) :
    (wireless_pairing_receive_cb my_mac st blk).1.persisted_peer = st.persisted_peer ∧
    (wireless_pairing_receive_cb my_mac st blk).1.pairing_active = st.pairing_active ∧
    (wireless_pairing_receive_cb my_mac st blk).1.handler_subscribed = st.handler_subscribed := by
  rcases blk with _ | m <;>
    simp only [wireless_pairing_receive_cb] <;>
    split_ifs <;> simp_all

/-- The pairing callback raises `got_done_from_peer` only on a
`PAIRING_DONE` with a nonzero address. -/
theorem pairing_cb_got_done (my_mac : List Nat) (st : PairState)
    (blk : Option WHeaderSys)
    (hdone : (wireless_pairing_receive_cb my_mac st blk).1.got_done_from_peer = true) :
    st.got_done_from_peer = true ∨
      ∃ m, blk = some m ∧ m.message_type = W_MSG_TYPE_SYSTEM_PAIRING_DONE ∧
        m.peer_addr ≠ zero_mac := by
  rcases blk with _ | m <;>
    simp only [wireless_pairing_receive_cb] at hdone <;>
    split_ifs at hdone <;> simp_all

/-- One delivery round preserves the persisted MAC, the active flag
and the subscription, and raises `got_done_from_peer` only through a
nonzero `PAIRING_DONE` among its blocks. -/
theorem pairing_round_facts (my_mac : List Nat) :
    ∀ (round : List (Option WHeaderSys)) (acc : PairState × List WHeaderSys),
    (round.foldl (fun acc b =>
        let r := wireless_pairing_receive_cb my_mac acc.1 b
        (r.1, acc.2 ++ r.2)) acc).1.persisted_peer = acc.1.persisted_peer ∧
    (round.foldl (fun acc b =>
        let r := wireless_pairing_receive_cb my_mac acc.1 b
        (r.1, acc.2 ++ r.2)) acc).1.pairing_active = acc.1.pairing_active ∧
    (round.foldl (fun acc b =>
        let r := wireless_pairing_receive_cb my_mac acc.1 b
        (r.1, acc.2 ++ r.2)) acc).1.handler_subscribed = acc.1.handler_subscribed ∧
    ((round.foldl (fun acc b =>
        let r := wireless_pairing_receive_cb my_mac acc.1 b
        (r.1, acc.2 ++ r.2)) acc).1.got_done_from_peer = true →
      acc.1.got_done_from_peer = true ∨
        ∃ b ∈ round, ∃ m, b = some m ∧
          m.message_type = W_MSG_TYPE_SYSTEM_PAIRING_DONE ∧
          m.peer_addr ≠ zero_mac) := by
  intro round
  induction round with
  | nil =>
    intro acc
    exact ⟨rfl, rfl, rfl, fun h => Or.inl h⟩
  | cons b rest ih =>
    intro acc
    simp only [List.foldl_cons]
    have hcb := pairing_cb_preserves my_mac acc.1 b
    have hr := ih ((wireless_pairing_receive_cb my_mac acc.1 b).1,
      acc.2 ++ (wireless_pairing_receive_cb my_mac acc.1 b).2)
    refine ⟨hr.1.trans hcb.1, hr.2.1.trans hcb.2.1, hr.2.2.1.trans hcb.2.2, ?_⟩
    intro hdone
    rcases hr.2.2.2 hdone with h1 | ⟨b2, hb2, m, hm⟩
    · rcases pairing_cb_got_done my_mac acc.1 b h1 with h2 | ⟨m, hm⟩
      · exact Or.inl h2
      · exact Or.inr ⟨b, List.mem_cons_self b rest, m, hm⟩
    · exact Or.inr ⟨b2, List.mem_cons_of_mem b hb2, m, hm⟩

/-- The pairing task from an arbitrary state with
`got_done_from_peer = false`: it always ends inactive and
unsubscribed; finalization registers the persisted MAC as the radio
peer and happens only with `got_done_from_peer` raised; timeout
reverts everything to zero; and a finalization implies some round
delivered a nonzero `PAIRING_DONE`. -/
theorem pairing_run_aux (my_mac : List Nat) :
    ∀ (rounds : List (List (Option WHeaderSys))) (st : PairState),
    st.got_done_from_peer = false →
    (wireless_pairing_task_run my_mac st rounds).1.pairing_active = false ∧
    (wireless_pairing_task_run my_mac st rounds).1.handler_subscribed = false ∧
    ((wireless_pairing_task_run my_mac st rounds).2.1 = true →
      (wireless_pairing_task_run my_mac st rounds).1.radio_peer =
        some (wireless_pairing_task_run my_mac st rounds).1.persisted_peer ∧
      (wireless_pairing_task_run my_mac st rounds).1.got_done_from_peer = true) ∧
    ((wireless_pairing_task_run my_mac st rounds).2.1 = false →
      (wireless_pairing_task_run my_mac st rounds).1.persisted_peer = zero_mac ∧
      (wireless_pairing_task_run my_mac st rounds).1.temp_peer_mac = zero_mac ∧
      (wireless_pairing_task_run my_mac st rounds).1.have_temp_peer = false ∧
      (wireless_pairing_task_run my_mac st rounds).1.got_done_from_peer = false) ∧
    ((wireless_pairing_task_run my_mac st rounds).2.1 = true →
      ∃ round ∈ rounds, ∃ b ∈ round, ∃ m, b = some m ∧
        m.message_type = W_MSG_TYPE_SYSTEM_PAIRING_DONE ∧
        m.peer_addr ≠ zero_mac) := by
  intro rounds
  induction rounds with
  | nil =>
    intro st hgd
    refine ⟨rfl, rfl, ?_, ?_, ?_⟩
    · intro h
      exact absurd h (by simp [wireless_pairing_task_run])
    · intro _
      exact ⟨rfl, rfl, rfl, rfl⟩
    · intro h
      exact absurd h (by simp [wireless_pairing_task_run])
  | cons round rest ih =>
    intro st hgd
    have hfold := pairing_round_facts my_mac round (st, [])
    by_cases hgd1 : (pairing_deliver_round my_mac st round).1.got_done_from_peer = true
    · have hrun : wireless_pairing_task_run my_mac st (round :: rest) =
          (finalize_pairing (pairing_deliver_round my_mac st round).1, true,
            ({ message_type := W_MSG_TYPE_SYSTEM_PAIRING_MAC,
               peer_addr := my_mac, channel := 0 } : WHeaderSys) ::
              (pairing_deliver_round my_mac st round).2) := by
        rw [wireless_pairing_task_run]
        simp [hgd1]
      rw [hrun]
      refine ⟨rfl, rfl, fun _ => ⟨rfl, hgd1⟩, ?_, ?_⟩
      · intro h
        exact absurd h (by simp)
      · intro _
        rcases hfold.2.2.2 hgd1 with h1 | ⟨b, hb, m, hm⟩
        · rw [hgd] at h1
          exact absurd h1 (by simp)
        · exact ⟨round, List.mem_cons_self round rest, b, hb, m, hm⟩
    · have hrun : wireless_pairing_task_run my_mac st (round :: rest) =
          ((wireless_pairing_task_run my_mac
              (pairing_deliver_round my_mac st round).1 rest).1,
            (wireless_pairing_task_run my_mac
              (pairing_deliver_round my_mac st round).1 rest).2.1,
            (({ message_type := W_MSG_TYPE_SYSTEM_PAIRING_MAC,
                peer_addr := my_mac, channel := 0 } : WHeaderSys) ::
              (pairing_deliver_round my_mac st round).2) ++
              (wireless_pairing_task_run my_mac
                (pairing_deliver_round my_mac st round).1 rest).2.2) := by
        rw [wireless_pairing_task_run]
        simp [hgd1]
      have hnext := ih (pairing_deliver_round my_mac st round).1
        (by simpa using hgd1)
      rw [hrun]
      refine ⟨hnext.1, hnext.2.1, hnext.2.2.1, hnext.2.2.2.1, ?_⟩
      intro h
      rcases hnext.2.2.2.2 h with ⟨r2, hr2, rest2⟩
      exact ⟨r2, List.mem_cons_of_mem round hr2, rest2⟩

/-- C8: after `Wireless_Pairing_Begin`, the pairing task either
finalizes as soon as `got_done_from_peer` is observed on its loop —
persisting `temp_peer_mac` and registering it as the radio peer,
unsubscribing, clearing `pairing_active` — or reverts on timeout —
persisting the all-zero MAC, unsubscribing, clearing `pairing_active`
and the temporary state; it never ends with `pairing_active` set, and
a nonzero persisted MAC implies that a nonzero `PAIRING_DONE` was
received. -/
theorem pairing_finalize_or_revert (my_mac : List Nat) (st0 : PairState)
    (rounds : List (List (Option WHeaderSys))) :
    (wireless_pairing_task_run my_mac (Wireless_Pairing_Begin st0) rounds).1.pairing_active
        = false ∧
    (wireless_pairing_task_run my_mac (Wireless_Pairing_Begin st0) rounds).1.handler_subscribed
        = false ∧
    ((wireless_pairing_task_run my_mac (Wireless_Pairing_Begin st0) rounds).2.1 = true →
      (wireless_pairing_task_run my_mac (Wireless_Pairing_Begin st0) rounds).1.radio_peer =
        some (wireless_pairing_task_run my_mac (Wireless_Pairing_Begin st0) rounds).1.persisted_peer ∧
      (wireless_pairing_task_run my_mac (Wireless_Pairing_Begin st0) rounds).1.got_done_from_peer
        = true) ∧
    ((wireless_pairing_task_run my_mac (Wireless_Pairing_Begin st0) rounds).2.1 = false →
      (wireless_pairing_task_run my_mac (Wireless_Pairing_Begin st0) rounds).1.persisted_peer
        = zero_mac ∧
      (wireless_pairing_task_run my_mac (Wireless_Pairing_Begin st0) rounds).1.temp_peer_mac
        = zero_mac ∧
      (wireless_pairing_task_run my_mac (Wireless_Pairing_Begin st0) rounds).1.have_temp_peer
        = false ∧
      (wireless_pairing_task_run my_mac (Wireless_Pairing_Begin st0) rounds).1.got_done_from_peer
        = false) ∧
    ((wireless_pairing_task_run my_mac (Wireless_Pairing_Begin st0) rounds).1.persisted_peer
        ≠ zero_mac →
      ∃ round ∈ rounds, ∃ b ∈ round, ∃ m, b = some m ∧
        m.message_type = W_MSG_TYPE_SYSTEM_PAIRING_DONE ∧
        m.peer_addr ≠ zero_mac) := by
  have h := pairing_run_aux my_mac rounds (Wireless_Pairing_Begin st0) rfl
  refine ⟨h.1, h.2.1, h.2.2.1, h.2.2.2.1, ?_⟩
  intro hnz
  by_cases hfin : (wireless_pairing_task_run my_mac (Wireless_Pairing_Begin st0) rounds).2.1 = true
  · exact h.2.2.2.2 hfin
  · exact absurd ((h.2.2.2.1 (by simpa using hfin)).1) hnz

/-- C8 witness: a concrete run that receives a nonzero `PAIRING_DONE`
in its first round ends finalized and inactive. -/
theorem pairing_finalize_or_revert_witness :
    (wireless_pairing_task_run [7, 7, 7, 7, 7, 7]
      (Wireless_Pairing_Begin
        ⟨false, false, zero_mac, false, [9, 9, 9, 9, 9, 9], none, false⟩)
      [[some ⟨2, [1, 2, 3, 4, 5, 6], 0⟩]]).1.pairing_active = false :=
  (pairing_finalize_or_revert [7, 7, 7, 7, 7, 7]
    ⟨false, false, zero_mac, false, [9, 9, 9, 9, 9, 9], none, false⟩
    [[some ⟨2, [1, 2, 3, 4, 5, 6], 0⟩]]).1

/-! ## Buffer-lifetime lemmas for the send machine -/

theorem freedTxBufs_append (a b : List HeapFree) :
    freedTxBufs (a ++ b) = freedTxBufs a ++ freedTxBufs b := by
  simp [freedTxBufs]

theorem freedTxBufs_rxBuf (o : Option (List Nat)) :
    freedTxBufs ((o.map HeapFree.rxBuf).toList) = [] := by
  rcases o <;> rfl

theorem freedTxBufs_rxMap (o : Option (List Bool)) :
    freedTxBufs ((o.map HeapFree.rxMap).toList) = [] := by
  rcases o <;> rfl

theorem freedTxBufs_txMap (o : Option (List Bool)) :
    freedTxBufs ((o.map HeapFree.txMap).toList) = [] := by
  rcases o <;> rfl

theorem freedTxBufs_txBuf (o : Option (List Nat)) :
    freedTxBufs ((o.map HeapFree.txBuf).toList) = o.toList := by
  rcases o <;> rfl

theorem freedTxBufs_nil : freedTxBufs [] = [] := rfl

theorem freedTxBufs_rxBuf_single (b : List Nat) :
    freedTxBufs [HeapFree.rxBuf b] = [] := rfl

theorem freedTxBufs_cons_rxBuf (b : List Nat) (l : List HeapFree) :
    freedTxBufs (HeapFree.rxBuf b :: l) = freedTxBufs l := by
  simp [freedTxBufs]

/-- Processing any received packet leaves the tx queue alone and either
leaves the send state and tx heap alone, or (ASK while sending, or a
retry-exhausting path) moves the machine to Idle, freeing exactly the
current tx buffer. -/
theorem rdt_recv_tx_facts (crcF : CrcFn) (channel_idx : Nat) (now : Int)
    (ch : RdtChannel) (stats : RssiStats) (pkt : RdtPacket) (o : RdtStepOut)
    (ho : rdt_process_received_packet crcF channel_idx now ch stats pkt = o) :
    o.ch.tx_queue = ch.tx_queue ∧
    ((o.ch.tx_ctrl = ch.tx_ctrl ∧ freedTxBufs o.freed = []) ∨
      (ch.tx_ctrl.sending = true ∧ o.ch.tx_ctrl.sending = false ∧
        o.ch.tx_ctrl.tx_buffer = none ∧
        freedTxBufs o.freed = ch.tx_ctrl.tx_buffer.toList)) := by
  simp only [rdt_process_received_packet] at ho
  by_cases c1 : channel_idx ≥ RDT_MAX_CHANNELS
  · rw [if_pos c1] at ho; subst ho; exact ⟨rfl, Or.inl ⟨rfl, rfl⟩⟩
  rw [if_neg c1] at ho
  by_cases c2 : ch.tx_queue = none ∨ ch.tx_queue_length = 0 ∨ ch.rx_queue = none
  · rw [if_pos c2] at ho; subst ho; exact ⟨rfl, Or.inl ⟨rfl, rfl⟩⟩
  rw [if_neg c2] at ho
  by_cases c3 : rdt_calc_crc crcF pkt ≠ pkt.crc
  · rw [if_pos c3] at ho; subst ho; exact ⟨rfl, Or.inl ⟨rfl, rfl⟩⟩
  rw [if_neg c3] at ho
  by_cases c4 : pkt.service_code = RDT_MSG_BEGIN
  · rw [if_pos c4] at ho; subst ho
    exact ⟨rfl, Or.inl ⟨rfl, by
      simp [freedTxBufs_append, freedTxBufs_rxBuf, freedTxBufs_rxMap]⟩⟩
  rw [if_neg c4] at ho
  by_cases c5 : pkt.service_code = RDT_MSG_DATA
  · rw [if_pos c5] at ho
    split_ifs at ho <;> subst ho <;> exact ⟨rfl, Or.inl ⟨rfl, rfl⟩⟩
  rw [if_neg c5] at ho
  by_cases c6 : pkt.service_code = RDT_MSG_END
  · rw [if_pos c6] at ho
    split_ifs at ho <;> subst ho <;>
      first
        | exact ⟨rfl, Or.inl ⟨rfl, rfl⟩⟩
        | exact ⟨rfl, Or.inl ⟨rfl, by
            simp [freedTxBufs_append, freedTxBufs_nil, freedTxBufs_cons_rxBuf,
              freedTxBufs_rxBuf_single, freedTxBufs_rxMap]⟩⟩
  rw [if_neg c6] at ho
  by_cases c7 : pkt.service_code = RDT_MSG_ASK
  · rw [if_pos c7] at ho
    split_ifs at ho <;> subst ho
    · exact ⟨rfl, Or.inr ⟨by assumption, rfl, rfl, by
        simp [freedTxBufs_append, freedTxBufs_txMap, freedTxBufs_txBuf]⟩⟩
    · exact ⟨rfl, Or.inl ⟨rfl, rfl⟩⟩
  rw [if_neg c7] at ho
  by_cases c8 : pkt.service_code = RDT_MSG_NACK
  · rw [if_pos c8] at ho
    split_ifs at ho <;> subst ho <;> exact ⟨rfl, Or.inl ⟨rfl, rfl⟩⟩
  rw [if_neg c8] at ho
  subst ho
  exact ⟨rfl, Or.inl ⟨rfl, rfl⟩⟩

/-- A tick on a channel whose tx queue is empty leaves the queue empty
and either leaves the send flag, buffer and tx heap alone, or exhausts
the retries, moving to Idle and freeing exactly the current buffer. -/
theorem rdt_tick_tx_facts (crcF : CrcFn) (channel_idx : Nat) (now : Int)
    (ch : RdtChannel) (stats : RssiStats)
    (hq0 : ch.tx_queue = some []) (o : RdtStepOut)
    (ho : rdt_process_tx_channel crcF channel_idx now ch stats = o) :
    o.ch.tx_queue = some [] ∧
    ((o.ch.tx_ctrl.sending = ch.tx_ctrl.sending ∧
        o.ch.tx_ctrl.tx_buffer = ch.tx_ctrl.tx_buffer ∧
        freedTxBufs o.freed = []) ∨
      (ch.tx_ctrl.sending = true ∧ o.ch.tx_ctrl.sending = false ∧
        o.ch.tx_ctrl.tx_buffer = none ∧
        freedTxBufs o.freed = ch.tx_ctrl.tx_buffer.toList)) := by
  simp only [rdt_process_tx_channel, rdt_restart_tx_block] at ho
  by_cases c1 : ch.tx_queue = none ∨ ch.tx_queue_length = 0 ∨ ch.rx_queue = none
  · rw [if_pos c1] at ho; subst ho; exact ⟨hq0, Or.inl ⟨rfl, rfl, rfl⟩⟩
  rw [if_neg c1] at ho
  by_cases c2 : ch.tx_ctrl.sending = false
  · rw [if_pos c2] at ho
    rw [hq0] at ho
    simp only [Option.getD_some] at ho
    subst ho
    exact ⟨hq0, Or.inl ⟨rfl, rfl, rfl⟩⟩
  rw [if_neg c2] at ho
  by_cases c3 : now - ch.tx_ctrl.last_send_time > (RDT_ACK_TIMEOUT_MS : Int) * 1000
  · rw [if_pos c3] at ho
    by_cases c4 : RDT_MAX_RETRY_COUNT ≤ (ch.tx_ctrl.retry_count + 1) % 256
    · rw [if_pos c4] at ho; subst ho
      exact ⟨hq0, Or.inr ⟨by simpa using c2, rfl, rfl, by
        simp [freedTxBufs_append, freedTxBufs_txMap, freedTxBufs_txBuf]⟩⟩
    · rw [if_neg c4] at ho; subst ho
      exact ⟨hq0, Or.inl ⟨rfl, rfl, rfl⟩⟩
  · rw [if_neg c3] at ho; subst ho
    exact ⟨hq0, Or.inl ⟨rfl, rfl, rfl⟩⟩

/-- The lifetime phase of a block `b` owned by the send machine of a
channel with no further queued blocks: either still in flight with
nothing freed, or returned to Idle with `b` freed exactly once. -/
def TxPhase (b : List Nat) (ch : RdtChannel) (freed : List (List Nat)) : Prop :=
  ch.tx_queue = some [] ∧
  ((ch.tx_ctrl.sending = true ∧ ch.tx_ctrl.tx_buffer = some b ∧ freed = []) ∨
   (ch.tx_ctrl.sending = false ∧ ch.tx_ctrl.tx_buffer = none ∧ freed = [b]))

/-- Any trace of engine events preserves the lifetime phase of the
block in flight: the tx buffer is freed at most once, and exactly once
by the time the machine is back to Idle. -/
theorem rdt_tx_phase_run (crcF : CrcFn) (channel_idx : Nat) (b : List Nat) :
    ∀ (evs : List RdtEvent) (ch : RdtChannel) (stats : RssiStats)
      (f0 : List (List Nat)),
    TxPhase b ch f0 →
    TxPhase b (rdt_run crcF channel_idx (ch, stats) evs).1.1
      (f0 ++ freedTxBufs (rdt_run crcF channel_idx (ch, stats) evs).2) := by
  intro evs
  induction evs with
  | nil =>
    intro ch stats f0 hp
    simpa [rdt_run, freedTxBufs] using hp
  | cons e rest ih =>
    intro ch stats f0 hp
    have hstep : ∀ (o : RdtStepOut), o = rdt_step crcF channel_idx (ch, stats) e →
        TxPhase b o.ch (f0 ++ freedTxBufs o.freed) := by
      intro o ho
      rcases e with ⟨now⟩ | ⟨now, pkt⟩
      · have hf := rdt_tick_tx_facts crcF channel_idx now ch stats hp.1 o ho.symm
        rcases hp.2 with ⟨hs, hb, hfr⟩ | ⟨hs, hb, hfr⟩
        · rcases hf.2 with ⟨h1, h2, h3⟩ | ⟨h1, h2, h3, h4⟩
          · exact ⟨hf.1, Or.inl ⟨h1.trans hs, h2.trans hb, by simp [hfr, h3]⟩⟩
          · exact ⟨hf.1, Or.inr ⟨h2, h3, by simp [hfr, h4, hb]⟩⟩
        · rcases hf.2 with ⟨h1, h2, h3⟩ | ⟨h1, h2, h3, h4⟩
          · exact ⟨hf.1, Or.inr ⟨h1.trans hs, h2.trans hb, by simp [hfr, h3]⟩⟩
          · rw [hs] at h1
            exact absurd h1 (by simp)
      · have hf := rdt_recv_tx_facts crcF channel_idx now ch stats pkt o ho.symm
        rcases hp.2 with ⟨hs, hb, hfr⟩ | ⟨hs, hb, hfr⟩
        · rcases hf.2 with ⟨h1, h2⟩ | ⟨h1, h2, h3, h4⟩
          · exact ⟨hf.1.trans hp.1, Or.inl ⟨by rw [h1]; exact hs,
              by rw [h1]; exact hb, by simp [hfr, h2]⟩⟩
          · exact ⟨hf.1.trans hp.1, Or.inr ⟨h2, h3, by simp [hfr, h4, hb]⟩⟩
        · rcases hf.2 with ⟨h1, h2⟩ | ⟨h1, h2, h3, h4⟩
          · exact ⟨hf.1.trans hp.1, Or.inr ⟨by rw [h1]; exact hs,
              by rw [h1]; exact hb, by simp [hfr, h2]⟩⟩
          · rw [hs] at h1
            exact absurd h1 (by simp)
    have hnext := hstep (rdt_step crcF channel_idx (ch, stats) e) rfl
    have hrec := ih (rdt_step crcF channel_idx (ch, stats) e).ch
      (rdt_step crcF channel_idx (ch, stats) e).stats
      (f0 ++ freedTxBufs (rdt_step crcF channel_idx (ch, stats) e).freed) hnext
    simp only [rdt_run]
    simpa [freedTxBufs_append, List.append_assoc] using hrec

/-- The tick times that force one ACK timeout each: the first fires
200 ms after `t`, every later one 200 ms after its predecessor. -/
def rdt_late_ticks (t : Int) : Nat → List RdtEvent
  | 0 => []
  | k + 1 => .tick (t + 200000) :: rdt_late_ticks (t + 200000) k

/-- Feeding a Sending channel the late ticks that exhaust its retry
budget frees the block and returns the machine to Idle. -/
theorem rdt_late_ticks_exhaust (crcF : CrcFn) (channel_idx : Nat) (b : List Nat) :
    ∀ (k : Nat) (ch : RdtChannel) (stats : RssiStats),
    ¬(ch.tx_queue = none ∨ ch.tx_queue_length = 0 ∨ ch.rx_queue = none) →
    ch.tx_ctrl.sending = true →
    ch.tx_ctrl.tx_buffer = some b →
    ch.tx_ctrl.retry_count + k = RDT_MAX_RETRY_COUNT →
    1 ≤ k →
    (rdt_run crcF channel_idx (ch, stats)
        (rdt_late_ticks ch.tx_ctrl.last_send_time k)).1.1.tx_ctrl.sending = false ∧
    (rdt_run crcF channel_idx (ch, stats)
        (rdt_late_ticks ch.tx_ctrl.last_send_time k)).1.1.tx_ctrl.tx_buffer = none ∧
    freedTxBufs (rdt_run crcF channel_idx (ch, stats)
        (rdt_late_ticks ch.tx_ctrl.last_send_time k)).2 = [b] := by
  intro k
  induction k with
  | zero =>
    intro ch stats _ _ _ _ hk
    exact absurd hk (by omega)
  | succ n ih =>
    intro ch stats hq hsending hbuf hretry _
    have hlate : ch.tx_ctrl.last_send_time + 200000 - ch.tx_ctrl.last_send_time >
        (RDT_ACK_TIMEOUT_MS : Int) * 1000 := by
      simp only [RDT_ACK_TIMEOUT_MS]
      omega
    by_cases hn : n = 0
    · subst hn
      have hmax : RDT_MAX_RETRY_COUNT ≤ (ch.tx_ctrl.retry_count + 1) % 256 := by
        simp only [RDT_MAX_RETRY_COUNT] at hretry ⊢
        omega
      simp only [rdt_late_ticks, rdt_run, rdt_step]
      rw [rdt_tick_timeout_exhaust_eq crcF channel_idx
        (ch.tx_ctrl.last_send_time + 200000) ch stats hq hsending hlate hmax]
      rcases hm : ch.tx_ctrl.packet_sent_map with _ | m <;>
        simp [hbuf, hm, freedTxBufs, rdt_run]
    · have hmax : ¬ RDT_MAX_RETRY_COUNT ≤ (ch.tx_ctrl.retry_count + 1) % 256 := by
        simp only [RDT_MAX_RETRY_COUNT] at hretry ⊢
        omega
      simp only [rdt_late_ticks, rdt_run, rdt_step]
      rw [rdt_tick_timeout_restart_eq crcF channel_idx
        (ch.tx_ctrl.last_send_time + 200000) ch stats hq hsending hlate hmax]
      have hnext := ih
        { ch with tx_ctrl := { ch.tx_ctrl with
            retry_count := (ch.tx_ctrl.retry_count + 1) % 256,
            packet_sent_map :=
              some ((List.replicate ch.tx_ctrl.total_packets false).set 0 true),
            next_seq_to_send := 1,
            last_send_time := ch.tx_ctrl.last_send_time + 200000 } }
        { stats with
          total_packets_resent :=
            addU32 stats.total_packets_resent ch.tx_ctrl.total_packets }
        (by simpa using hq) hsending hbuf
        (by simp only [RDT_MAX_RETRY_COUNT] at hretry ⊢; omega) (by omega)
      simpa [freedTxBufs] using hnext

/-- C2: (a) a Sending tick past `ACK_TIMEOUT` increments `retry_count`
and either — at `MAX_RETRY` — frees `packet_sent_map` and `tx_buffer`
and returns to Idle, or restarts the block (fresh sent map with BEGIN
marked, re-emitted BEGIN, `next_seq_to_send = 1`, refreshed
`last_send_time`); (b) along any event trace, the block in flight is
freed at most once, and exactly once by the time the machine is Idle
again; (c) the block is never leaked: late ticks alone force the free
within the retry budget. -/
theorem rdt_tx_timeout_retry_single_free :
    (∀ (crcF : CrcFn) (channel_idx : Nat) (now : Int) (ch : RdtChannel)
        (stats : RssiStats),
      ¬(ch.tx_queue = none ∨ ch.tx_queue_length = 0 ∨ ch.rx_queue = none) →
      ch.tx_ctrl.sending = true →
      now - ch.tx_ctrl.last_send_time > (RDT_ACK_TIMEOUT_MS : Int) * 1000 →
      (rdt_process_tx_channel crcF channel_idx now ch stats).ch.tx_ctrl.retry_count
          = (ch.tx_ctrl.retry_count + 1) % 256 ∧
      (RDT_MAX_RETRY_COUNT ≤ (ch.tx_ctrl.retry_count + 1) % 256 →
        (rdt_process_tx_channel crcF channel_idx now ch stats).ch.tx_ctrl.sending
            = false ∧
        (rdt_process_tx_channel crcF channel_idx now ch stats).ch.tx_ctrl.tx_buffer
            = none ∧
        (rdt_process_tx_channel crcF channel_idx now ch stats).ch.tx_ctrl.packet_sent_map
            = none ∧
        (rdt_process_tx_channel crcF channel_idx now ch stats).freed
            = (ch.tx_ctrl.packet_sent_map.map HeapFree.txMap).toList ++
              (ch.tx_ctrl.tx_buffer.map HeapFree.txBuf).toList) ∧
      (¬ RDT_MAX_RETRY_COUNT ≤ (ch.tx_ctrl.retry_count + 1) % 256 →
        (rdt_process_tx_channel crcF channel_idx now ch stats).ch.tx_ctrl.sending
            = true ∧
        (rdt_process_tx_channel crcF channel_idx now ch stats).ch.tx_ctrl.packet_sent_map
            = some ((List.replicate ch.tx_ctrl.total_packets false).set 0 true) ∧
        (rdt_process_tx_channel crcF channel_idx now ch stats).ch.tx_ctrl.next_seq_to_send
            = 1 ∧
        (rdt_process_tx_channel crcF channel_idx now ch stats).ch.tx_ctrl.last_send_time
            = now ∧
        (rdt_process_tx_channel crcF channel_idx now ch stats).sent
            = (rdt_send_one_packet crcF channel_idx 0 RDT_MSG_BEGIN
                (size_arr_le ch.tx_ctrl.current_size) 4).toList)) ∧
    (∀ (crcF : CrcFn) (channel_idx : Nat) (b : List Nat) (evs : List RdtEvent)
        (ch : RdtChannel) (stats : RssiStats),
      ch.tx_queue = some [] →
      ch.tx_ctrl.sending = true →
      ch.tx_ctrl.tx_buffer = some b →
      (freedTxBufs (rdt_run crcF channel_idx (ch, stats) evs).2 = [] ∧
        (rdt_run crcF channel_idx (ch, stats) evs).1.1.tx_ctrl.sending = true ∧
        (rdt_run crcF channel_idx (ch, stats) evs).1.1.tx_ctrl.tx_buffer = some b) ∨
      (freedTxBufs (rdt_run crcF channel_idx (ch, stats) evs).2 = [b] ∧
        (rdt_run crcF channel_idx (ch, stats) evs).1.1.tx_ctrl.sending = false ∧
        (rdt_run crcF channel_idx (ch, stats) evs).1.1.tx_ctrl.tx_buffer = none)) ∧
    (∀ (crcF : CrcFn) (channel_idx : Nat) (b : List Nat) (ch : RdtChannel)
        (stats : RssiStats),
      ¬(ch.tx_queue = none ∨ ch.tx_queue_length = 0 ∨ ch.rx_queue = none) →
      ch.tx_ctrl.sending = true →
      ch.tx_ctrl.tx_buffer = some b →
      ch.tx_ctrl.retry_count = 0 →
      freedTxBufs (rdt_run crcF channel_idx (ch, stats)
          (rdt_late_ticks ch.tx_ctrl.last_send_time RDT_MAX_RETRY_COUNT)).2 = [b] ∧
      (rdt_run crcF channel_idx (ch, stats)
          (rdt_late_ticks ch.tx_ctrl.last_send_time RDT_MAX_RETRY_COUNT)).1.1.tx_ctrl.sending
        = false) := by
  refine ⟨?_, ?_, ?_⟩
  · intro crcF channel_idx now ch stats hq hsending hlate
    by_cases hmax : RDT_MAX_RETRY_COUNT ≤ (ch.tx_ctrl.retry_count + 1) % 256
    · rw [rdt_tick_timeout_exhaust_eq crcF channel_idx now ch stats hq hsending
        hlate hmax]
      exact ⟨rfl, fun _ => ⟨rfl, rfl, rfl, rfl⟩, fun h => absurd hmax h⟩
    · rw [rdt_tick_timeout_restart_eq crcF channel_idx now ch stats hq hsending
        hlate hmax]
      exact ⟨rfl, fun h => absurd h hmax, fun _ => ⟨hsending, rfl, rfl, rfl, rfl⟩⟩
  · intro crcF channel_idx b evs ch stats hq0 hsending hbuf
    have hp := rdt_tx_phase_run crcF channel_idx b evs ch stats []
      ⟨hq0, Or.inl ⟨hsending, hbuf, rfl⟩⟩
    rcases hp.2 with ⟨h1, h2, h3⟩ | ⟨h1, h2, h3⟩
    · exact Or.inl ⟨by simpa using h3, h1, h2⟩
    · exact Or.inr ⟨by simpa using h3, h1, h2⟩
  · intro crcF channel_idx b ch stats hq hsending hbuf hretry
    have h := rdt_late_ticks_exhaust crcF channel_idx b RDT_MAX_RETRY_COUNT
      ch stats hq hsending hbuf (by rw [hretry, Nat.zero_add]) (by simp [RDT_MAX_RETRY_COUNT])
    exact ⟨h.2.2, h.1⟩

/-- C2 witness: a concrete Sending channel holding block `[7]` that is
fed only late ticks frees exactly that block on the fifth timeout. -/
theorem rdt_tx_timeout_retry_single_free_witness :
    freedTxBufs (rdt_run (fun _ _ _ _ => 0) 2
      ({ rdt_channel_default with
          rx_queue := some [], tx_queue := some [],
          rx_queue_length := 1, tx_queue_length := 1,
          tx_ctrl := ⟨true, 1, 3, some [7], 0, 3, some [true, true, true], 0⟩ },
        ⟨0, 0⟩)
      (rdt_late_ticks 0 RDT_MAX_RETRY_COUNT)).2 = [[7]] := by
  have h := rdt_tx_timeout_retry_single_free.2.2 (fun _ _ _ _ => 0) 2 [7]
    { rdt_channel_default with
      rx_queue := some [], tx_queue := some [],
      rx_queue_length := 1, tx_queue_length := 1,
      tx_ctrl := ⟨true, 1, 3, some [7], 0, 3, some [true, true, true], 0⟩ }
    ⟨0, 0⟩ (by decide) rfl rfl rfl
  exact h.1

/-! ## Round-trip development (C1) -/

/-- The marking state of a sequence map after sequences `0..k-1` have
been recorded: position `i` holds `i < k`. -/
def markedBelow (total k : Nat) : List Bool :=
  (List.range total).map (fun i => decide (i < k))

/-- The reassembly buffer after the first `k` DATA chunks of block `B`
have been copied in: a prefix of `B` followed by the zero fill. -/
def bufAt (B : List Nat) (k : Nat) : List Nat :=
  B.take (k * RDT_PACKET_PAYLOAD_LEN) ++
    List.replicate (B.length - k * RDT_PACKET_PAYLOAD_LEN) 0

/-- The receiver control block after BEGIN and `k` DATA packets of a
block `B` announced with `total` packets. -/
def rxAt (t : Int) (B : List Nat) (total k : Nat) : RdtChannelRx :=
  ⟨true, B.length, total, k + 1, some (bufAt B k),
   some (markedBelow total (k + 1)), t⟩

/-- The packet(s) the drain loop emits for sequence number `seq`: END
for the last sequence, the DATA chunk otherwise. -/
def rdt_seq_packet (crcF : CrcFn) (channel_idx size : Nat) (buf : List Nat)
    (total seq : Nat) : List RdtPacket :=
  if seq = total - 1 then
    (rdt_send_one_packet crcF channel_idx seq RDT_MSG_END [] 0).toList
  else
    (rdt_send_one_packet crcF channel_idx seq RDT_MSG_DATA
      ((buf.drop ((seq - 1) * RDT_PACKET_PAYLOAD_LEN)).take
        (rdt_data_chunk_len size ((seq - 1) * RDT_PACKET_PAYLOAD_LEN)))
      (rdt_data_chunk_len size ((seq - 1) * RDT_PACKET_PAYLOAD_LEN))).toList

theorem sub32_small (a b : Nat) (hb : b ≤ a) (ha : a < U32) :
    sub32 a b = a - b := by
  simp only [sub32, U32] at *
  omega

theorem markedBelow_length (total k : Nat) :
    (markedBelow total k).length = total := by
  simp [markedBelow]

theorem markedBelow_getD (total k j : Nat) (hj : j < total) :
    (markedBelow total k).getD j false = decide (j < k) := by
  simp [markedBelow, List.getD_eq_getElem?_getD, List.getElem?_range, hj]

theorem markedBelow_set (total k : Nat) (hk : k < total) :
    (markedBelow total k).set k true = markedBelow total (k + 1) := by
  apply List.ext_getElem (by simp [markedBelow])
  intro i h1 h2
  simp only [markedBelow, List.getElem_set, List.getElem_map, List.getElem_range]
  by_cases hik : k = i
  · subst hik
    simp
  · simp only [if_neg hik, decide_eq_decide]
    omega

theorem markedBelow_one (total : Nat) :
    (List.replicate total false).set 0 true = markedBelow total 1 := by
  apply List.ext_getElem (by simp [markedBelow])
  intro i h1 h2
  simp only [markedBelow, List.getElem_set, List.getElem_replicate,
    List.getElem_map, List.getElem_range]
  by_cases h0 : 0 = i
  · subst h0
    simp
  · have hi : ¬ i < 1 := by omega
    simp [if_neg h0, hi]

theorem bufAt_zero (B : List Nat) :
    bufAt B 0 = List.replicate B.length 0 := by
  simp [bufAt]

theorem bufAt_full (B : List Nat) (k : Nat)
    (h : B.length ≤ k * RDT_PACKET_PAYLOAD_LEN) :
    bufAt B k = B := by
  simp [bufAt, List.take_of_length_le h, Nat.sub_eq_zero_of_le h]

/-- `rdt_send_one_packet` succeeds for every in-range channel and
payload length, producing the zero-padded packet with its CRC stamp. -/
theorem rdt_send_one_packet_some (crcF : CrcFn) (channel_idx seq code : Nat)
    (payload : List Nat) (plen : Nat)
    (hch : ¬ channel_idx ≥ RDT_MAX_CHANNELS)
    (hlen : ¬ plen > RDT_PACKET_PAYLOAD_LEN) :
    rdt_send_one_packet crcF channel_idx seq code payload plen =
      some ⟨channel_idx, seq, code,
        payload.take plen ++ List.replicate (RDT_PACKET_PAYLOAD_LEN - plen) 0,
        crcF channel_idx seq code
          (payload.take plen ++ List.replicate (RDT_PACKET_PAYLOAD_LEN - plen) 0)⟩ := by
  simp [rdt_send_one_packet, hch, hlen]

theorem rdt_deliver_list_nil (crcF : CrcFn) (channel_idx : Nat) (now : Int)
    (s : RdtChannel × RssiStats) :
    rdt_deliver_list crcF channel_idx now s [] = s := rfl

theorem rdt_deliver_list_cons (crcF : CrcFn) (channel_idx : Nat) (now : Int)
    (s : RdtChannel × RssiStats) (p : RdtPacket) (ps : List RdtPacket) :
    rdt_deliver_list crcF channel_idx now s (p :: ps) =
      rdt_deliver_list crcF channel_idx now
        ((rdt_process_received_packet crcF channel_idx now s.1 s.2 p).ch,
         (rdt_process_received_packet crcF channel_idx now s.1 s.2 p).stats) ps := rfl

theorem rdt_deliver_list_append (crcF : CrcFn) (channel_idx : Nat) (now : Int)
    (s : RdtChannel × RssiStats) (a b : List RdtPacket) :
    rdt_deliver_list crcF channel_idx now s (a ++ b) =
      rdt_deliver_list crcF channel_idx now
        (rdt_deliver_list crcF channel_idx now s a) b := by
  simp [rdt_deliver_list, List.foldl_append]

/-- The drain loop from a prefix-marked map emits exactly the packets
for the remaining sequence numbers, in order. -/
theorem rdt_tx_drain_emit (crcF : CrcFn) (channel_idx : Nat) (now : Int)
    (size : Nat) (buf : List Nat) (total : Nat) :
    ∀ (fuel next : Nat) (last : Int),
    next + fuel = total → 1 ≤ next →
    (rdt_tx_drain crcF channel_idx now size total buf fuel next
      (markedBelow total next) last).2.2.2
    = ((List.range' next fuel).map
        (rdt_seq_packet crcF channel_idx size buf total)).flatten := by
  intro fuel
  induction fuel with
  | zero =>
    intro next last h1 h2
    simp [rdt_tx_drain]
  | succ n ih =>
    intro next last h1 h2
    have hlt : next < total := by omega
    have hget : (markedBelow total next).getD next false = false := by
      rw [markedBelow_getD total next next hlt]
      simp
    simp only [rdt_tx_drain, if_pos hlt, hget, Bool.false_eq_true, if_false]
    rw [markedBelow_set total next hlt]
    rw [ih (next + 1) now (by omega) (by omega)]
    rw [List.range'_succ, List.map_cons, List.flatten_cons]
    simp [rdt_seq_packet]

/-- Copying the DATA chunk for (0-based) chunk index `k` into the
partially filled buffer extends the copied prefix by one chunk. -/
theorem bufAt_write (B : List Nat) (k : Nat)
    (hoff : k * RDT_PACKET_PAYLOAD_LEN < B.length) (hU : B.length < U32) :
    listWrite (bufAt B k) (k * RDT_PACKET_PAYLOAD_LEN)
      ((B.drop (k * RDT_PACKET_PAYLOAD_LEN)).take
        (rdt_data_chunk_len B.length (k * RDT_PACKET_PAYLOAD_LEN)))
    = bufAt B (k + 1) := by
  set off := k * RDT_PACKET_PAYLOAD_LEN with hoffdef
  have hclen : rdt_data_chunk_len B.length off =
      min RDT_PACKET_PAYLOAD_LEN (B.length - off) := by
    simp only [rdt_data_chunk_len]
    split_ifs with h
    · rw [sub32_small _ _ (Nat.le_of_lt hoff) hU]
      omega
    · omega
  have htake : (B.take off).length = off := by
    rw [List.length_take]
    omega
  have hk1 : (k + 1) * RDT_PACKET_PAYLOAD_LEN = off + RDT_PACKET_PAYLOAD_LEN := by
    rw [hoffdef]
    ring
  have hsrc : ((B.drop off).take (rdt_data_chunk_len B.length off)).length =
      min RDT_PACKET_PAYLOAD_LEN (B.length - off) := by
    rw [hclen]
    simp only [List.length_take, List.length_drop]
    omega
  have hdrop : (B.take off ++ List.replicate (B.length - off) 0).drop
      (off + min RDT_PACKET_PAYLOAD_LEN (B.length - off)) =
      List.replicate (B.length - off - min RDT_PACKET_PAYLOAD_LEN (B.length - off)) 0 := by
    rw [← List.drop_drop (min RDT_PACKET_PAYLOAD_LEN (B.length - off)) off,
      List.drop_left' htake, List.drop_replicate]
  simp only [listWrite, bufAt, hk1]
  rw [List.take_left' htake, hsrc, hdrop, List.take_add, hclen]
  rcases le_or_lt RDT_PACKET_PAYLOAD_LEN (B.length - off) with hc | hc
  · rw [min_eq_left hc]
    have hcnt : B.length - off - RDT_PACKET_PAYLOAD_LEN =
        B.length - (off + RDT_PACKET_PAYLOAD_LEN) := by omega
    rw [hcnt]
  · rw [min_eq_right (Nat.le_of_lt hc)]
    have h1 : (B.drop off).take (B.length - off) = B.drop off :=
      List.take_of_length_le (by rw [List.length_drop])
    have h2 : (B.drop off).take RDT_PACKET_PAYLOAD_LEN = B.drop off :=
      List.take_of_length_le (by rw [List.length_drop]; omega)
    have hcnt1 : B.length - off - (B.length - off) = 0 := by omega
    have hcnt2 : B.length - (off + RDT_PACKET_PAYLOAD_LEN) = 0 := by omega
    rw [h1, h2, hcnt1, hcnt2]

theorem rdt_data_chunk_len_min (L off : Nat) (hoff : off < L) (hU : L < U32) :
    rdt_data_chunk_len L off = min RDT_PACKET_PAYLOAD_LEN (L - off) := by
  simp only [rdt_data_chunk_len]
  split_ifs with h
  · rw [sub32_small _ _ (Nat.le_of_lt hoff) hU]
    omega
  · omega

/-- Delivering the DATA packet for chunk `k` (sequence `k + 1`) to a
receiver that has absorbed BEGIN and the first `k` chunks advances it
by exactly one chunk. -/
theorem rdt_recv_data_step_eq (crcF : CrcFn) (channel_idx : Nat) (t2 : Int)
    (B : List Nat) (chR : RdtChannel) (stats : RssiStats) (T k : Nat)
    (p : RdtPacket)
    (hch : ¬ channel_idx ≥ RDT_MAX_CHANNELS)
    (hq : ¬(chR.tx_queue = none ∨ chR.tx_queue_length = 0 ∨ chR.rx_queue = none))
    (hU : B.length < U32)
    (hkT : k + 3 ≤ T)
    (hoff : k * RDT_PACKET_PAYLOAD_LEN < B.length)
    (hseqp : p.seq_num = k + 1)
    (hpay : p.payload = ((B.drop (k * RDT_PACKET_PAYLOAD_LEN)).take
        (rdt_data_chunk_len B.length (k * RDT_PACKET_PAYLOAD_LEN))).take
        (rdt_data_chunk_len B.length (k * RDT_PACKET_PAYLOAD_LEN)) ++
      List.replicate (RDT_PACKET_PAYLOAD_LEN -
        rdt_data_chunk_len B.length (k * RDT_PACKET_PAYLOAD_LEN)) 0)
    (hcrc : rdt_calc_crc crcF p = p.crc)
    (hsvc : p.service_code = RDT_MSG_DATA) :
    rdt_process_received_packet crcF channel_idx t2
        { chR with rx_ctrl := rxAt t2 B T k } stats p =
      ⟨{ chR with rx_ctrl := rxAt t2 B T (k + 1) }, stats, [], [], false⟩ := by
  have hclen := rdt_data_chunk_len_min B.length (k * RDT_PACKET_PAYLOAD_LEN) hoff hU
  have hsrctake : ((B.drop (k * RDT_PACKET_PAYLOAD_LEN)).take
      (rdt_data_chunk_len B.length (k * RDT_PACKET_PAYLOAD_LEN))).take
      (rdt_data_chunk_len B.length (k * RDT_PACKET_PAYLOAD_LEN)) =
      (B.drop (k * RDT_PACKET_PAYLOAD_LEN)).take
        (rdt_data_chunk_len B.length (k * RDT_PACKET_PAYLOAD_LEN)) := by
    rw [List.take_take, min_self]
  have hsrclen : ((B.drop (k * RDT_PACKET_PAYLOAD_LEN)).take
      (rdt_data_chunk_len B.length (k * RDT_PACKET_PAYLOAD_LEN))).length =
      rdt_data_chunk_len B.length (k * RDT_PACKET_PAYLOAD_LEN) := by
    rw [hclen]
    simp only [List.length_take, List.length_drop]
    omega
  have hpaytake : p.payload.take
      (rdt_data_chunk_len B.length (k * RDT_PACKET_PAYLOAD_LEN)) =
      (B.drop (k * RDT_PACKET_PAYLOAD_LEN)).take
        (rdt_data_chunk_len B.length (k * RDT_PACKET_PAYLOAD_LEN)) := by
    rw [hpay, hsrctake,
      List.take_append_of_le_length (le_of_eq hsrclen.symm), hsrctake]
  have hq2 : ¬({ chR with rx_ctrl := rxAt t2 B T k }.tx_queue = none ∨
      { chR with rx_ctrl := rxAt t2 B T k }.tx_queue_length = 0 ∨
      { chR with rx_ctrl := rxAt t2 B T k }.rx_queue = none) := by
    simpa using hq
  have hrecv : ({ chR with rx_ctrl := rxAt t2 B T k }).rx_ctrl.receiving = true := rfl
  have hseq2 : ¬ ({ chR with rx_ctrl := rxAt t2 B T k }).rx_ctrl.total_packets ≤
      p.seq_num := by
    simp only [rxAt, hseqp]
    omega
  have hunm : (({ chR with rx_ctrl := rxAt t2 B T k }).rx_ctrl.packet_received_map.getD
      []).getD p.seq_num false = false := by
    simp only [rxAt, hseqp, Option.getD_some]
    rw [markedBelow_getD T (k + 1) (k + 1) (by omega)]
    simp
  rw [rdt_recv_data_fresh_eq crcF channel_idx t2 _ stats p hch hq2 hcrc hsvc
    hrecv hseq2 hunm]
  simp only [rxAt, hseqp, Nat.add_sub_cancel, Option.getD_some,
    RdtStepOut.mk.injEq, RdtChannel.mk.injEq, RdtChannelRx.mk.injEq,
    if_pos hoff, hpaytake, bufAt_write B k hoff hU,
    markedBelow_set T (k + 1) (by omega : k + 1 < T)]

/-- Delivering the DATA packets for chunks `k+1 .. k+m` in order
advances the receiver from `k` absorbed chunks to `k + m`. -/
theorem rdt_deliver_data_aux (crcF : CrcFn) (channel_idx : Nat) (t2 : Int)
    (B : List Nat) (chR : RdtChannel) (stats : RssiStats) (T : Nat)
    (hch : ¬ channel_idx ≥ RDT_MAX_CHANNELS)
    (hq : ¬(chR.tx_queue = none ∨ chR.tx_queue_length = 0 ∨ chR.rx_queue = none))
    (hU : B.length < U32)
    (hTval : T = (B.length + 191) / 192 + 2) :
    ∀ (m k : Nat), k + m + 2 ≤ T →
    rdt_deliver_list crcF channel_idx t2
      ({ chR with rx_ctrl := rxAt t2 B T k }, stats)
      (((List.range' (k + 1) m).map
        (rdt_seq_packet crcF channel_idx B.length B T)).flatten)
    = ({ chR with rx_ctrl := rxAt t2 B T (k + m) }, stats) := by
  intro m
  induction m with
  | zero =>
    intro k hk
    simp [rdt_deliver_list]
  | succ n ih =>
    intro k hk
    have hoff : k * RDT_PACKET_PAYLOAD_LEN < B.length := by
      simp only [RDT_PACKET_PAYLOAD_LEN]
      omega
    have hlen : ¬ rdt_data_chunk_len B.length (k * RDT_PACKET_PAYLOAD_LEN) >
        RDT_PACKET_PAYLOAD_LEN := by
      rw [rdt_data_chunk_len_min _ _ hoff hU]
      omega
    have hne : ¬ (k + 1 = T - 1) := by omega
    rw [List.range'_succ, List.map_cons, List.flatten_cons]
    simp only [rdt_seq_packet, if_neg hne, Nat.add_sub_cancel]
    rw [rdt_send_one_packet_some crcF channel_idx (k + 1) RDT_MSG_DATA _ _ hch hlen]
    simp only [Option.toList_some, List.singleton_append]
    simp only [rdt_deliver_list_cons]
    rw [rdt_recv_data_step_eq crcF channel_idx t2 B chR stats T k _ hch hq hU
      (by omega : k + 3 ≤ T) hoff rfl rfl rfl rfl]
    have hkn : k + 1 + n = k + (n + 1) := by omega
    simpa [hkn] using ih (k + 1) (by omega)

/-- C1: round-trip of the RDT transport — a block `B` handed to the
send machine is emitted as BEGIN (4-byte little-endian size), DATA
sequences `1..n` and END, and feeding that packet sequence to the
reassembler of a channel with queue room produces a completed rx block
whose bytes equal `B`, byte for byte.  The side conditions `hU` and
`hT65` state that the 32-bit size and the 16-bit packet counter do not
overflow for `B`. -/
theorem rdt_round_trip (crcF : CrcFn) (channel_idx : Nat) (t0 t1 t2 : Int)
    (B : List Nat) (chS chR : RdtChannel) (statsS statsR : RssiStats)
    (rest rq : List RdtBlockItem)
    (hch : ¬ channel_idx ≥ RDT_MAX_CHANNELS)
    (hqS : ¬(chS.tx_queue = none ∨ chS.tx_queue_length = 0 ∨ chS.rx_queue = none))
    (hidle : chS.tx_ctrl.sending = false)
    (hqueue : chS.tx_queue = some (⟨B, B.length, none⟩ :: rest))
    (hpos : 1 ≤ B.length)
    (hmax : B.length ≤ chS.max_block_size)
    (hU : B.length < U32)
    (hT65 : (B.length + 191) / 192 + 2 < 65536)
    (h01 : ¬ t1 - t0 > (RDT_ACK_TIMEOUT_MS : Int) * 1000)
    (hqR : ¬(chR.tx_queue = none ∨ chR.tx_queue_length = 0 ∨ chR.rx_queue = none))
    (hrq : chR.rx_queue = some rq)
    (hroom : rq.length < chR.rx_queue_length) :
    (rdt_deliver_list crcF channel_idx t2 (chR, statsR)
      ((rdt_process_tx_channel crcF channel_idx t0 chS statsS).sent ++
       (rdt_process_tx_channel crcF channel_idx t1
         (rdt_process_tx_channel crcF channel_idx t0 chS statsS).ch
         (rdt_process_tx_channel crcF channel_idx t0 chS statsS).stats).sent)).1.rx_queue
    = some (rq ++ [⟨B, B.length, none⟩]) := by
  have hTeq : rdt_total_packets B.length = (B.length + 191) / 192 + 2 := by
    simp only [rdt_total_packets, RDT_PACKET_PAYLOAD_LEN]
    omega
  have h1 := rdt_tick_dequeue_eq crcF channel_idx t0 chS statsS
    ⟨B, B.length, none⟩ rest hqS hidle (by rw [hqueue]; rfl)
  have hch1 : (rdt_process_tx_channel crcF channel_idx t0 chS statsS).ch =
      { chS with tx_queue := some rest, tx_ctrl :=
        { sending := true, retry_count := 0, current_size := B.length,
          total_packets := rdt_total_packets B.length, tx_buffer := some B,
          packet_sent_map :=
            some ((List.replicate (rdt_total_packets B.length) false).set 0 true),
          next_seq_to_send := 1, last_send_time := t0 } } := by
    rw [h1]
  have hsent1 : (rdt_process_tx_channel crcF channel_idx t0 chS statsS).sent =
      (rdt_send_one_packet crcF channel_idx 0 RDT_MSG_BEGIN
        (size_arr_le B.length) 4).toList := by
    rw [h1]
  have hq1 : ¬((rdt_process_tx_channel crcF channel_idx t0 chS statsS).ch.tx_queue
        = none ∨
      (rdt_process_tx_channel crcF channel_idx t0 chS statsS).ch.tx_queue_length
        = 0 ∨
      (rdt_process_tx_channel crcF channel_idx t0 chS statsS).ch.rx_queue
        = none) := by
    rw [hch1]
    simp only [not_or] at hqS ⊢
    exact ⟨by simp, hqS.2.1, hqS.2.2⟩
  have h2 := rdt_tick_drain_eq crcF channel_idx t1
    (rdt_process_tx_channel crcF channel_idx t0 chS statsS).ch
    (rdt_process_tx_channel crcF channel_idx t0 chS statsS).stats
    hq1 (by rw [hch1]) (by rw [hch1]; exact h01)
  have hsent2 : (rdt_process_tx_channel crcF channel_idx t1
      (rdt_process_tx_channel crcF channel_idx t0 chS statsS).ch
      (rdt_process_tx_channel crcF channel_idx t0 chS statsS).stats).sent =
      (rdt_tx_drain crcF channel_idx t1 B.length (rdt_total_packets B.length) B
        (rdt_total_packets B.length - 1) 1
        (markedBelow (rdt_total_packets B.length) 1) t0).2.2.2 := by
    rw [h2, hch1, markedBelow_one]
    rfl
  have hemit := rdt_tx_drain_emit crcF channel_idx t1 B.length B
    (rdt_total_packets B.length) (rdt_total_packets B.length - 1) 1 t0
    (by rw [hTeq]; omega) (le_refl 1)
  have hszlen : (size_arr_le B.length).take 4 = size_arr_le B.length :=
    List.take_of_length_le (by simp [size_arr_le])
  have hBpkt := rdt_send_one_packet_some crcF channel_idx 0 RDT_MSG_BEGIN
    (size_arr_le B.length) 4 hch (by simp [RDT_PACKET_PAYLOAD_LEN])
  have hstepB : rdt_process_received_packet crcF channel_idx t2 chR statsR
      ⟨channel_idx, 0, RDT_MSG_BEGIN,
        (size_arr_le B.length).take 4 ++
          List.replicate (RDT_PACKET_PAYLOAD_LEN - 4) 0,
        crcF channel_idx 0 RDT_MSG_BEGIN
          ((size_arr_le B.length).take 4 ++
            List.replicate (RDT_PACKET_PAYLOAD_LEN - 4) 0)⟩ =
      ⟨{ chR with rx_ctrl := rxAt t2 B (rdt_total_packets B.length) 0 },
       { statsR with
         total_packets_sent :=
           addU32 statsR.total_packets_sent (rdt_total_packets B.length) },
       [],
       (chR.rx_ctrl.rx_buffer.map HeapFree.rxBuf).toList ++
         (chR.rx_ctrl.packet_received_map.map HeapFree.rxMap).toList,
       false⟩ := by
    rw [rdt_recv_begin_size_eq crcF channel_idx t2 chR statsR _ B.length hch hqR
      rfl rfl (by rw [hszlen]) hpos hU]
    simp [rxAt, bufAt_zero, markedBelow_one]
  have hsplit : List.range' 1 (rdt_total_packets B.length - 1) =
      List.range' 1 (rdt_total_packets B.length - 2) ++
        [rdt_total_packets B.length - 1] := by
    have ha := List.range'_append 1 (rdt_total_packets B.length - 2) 1 1
    rw [List.range'_one] at ha
    rw [show 1 + 1 * (rdt_total_packets B.length - 2) =
        rdt_total_packets B.length - 1 from by rw [hTeq]; omega] at ha
    rw [show 1 + (rdt_total_packets B.length - 2) =
        rdt_total_packets B.length - 1 from by rw [hTeq]; omega] at ha
    exact ha.symm
  rw [hsent1, hsent2, hemit, hBpkt, Option.toList_some, List.singleton_append]
  rw [rdt_deliver_list_cons]
  rw [hstepB]
  rw [hsplit, List.map_append, List.flatten_append, rdt_deliver_list_append]
  rw [rdt_deliver_data_aux crcF channel_idx t2 B chR _
    (rdt_total_packets B.length) hch hqR hU hTeq
    (rdt_total_packets B.length - 2) 0 (by rw [hTeq]; omega)]
  rw [Nat.zero_add]
  simp only [List.map_cons, List.map_nil, List.flatten_cons, List.flatten_nil,
    List.append_nil]
  have hEne : rdt_total_packets B.length - 1 = rdt_total_packets B.length - 1 := rfl
  simp only [rdt_seq_packet, if_pos hEne]
  rw [rdt_send_one_packet_some crcF channel_idx (rdt_total_packets B.length - 1)
    RDT_MSG_END [] 0 hch (by simp [RDT_PACKET_PAYLOAD_LEN])]
  rw [Option.toList_some]
  simp only [if_true]
  rw [rdt_deliver_list_cons, rdt_deliver_list_nil]
  rw [rdt_recv_end_complete_eq crcF channel_idx t2
    { chR with
      rx_ctrl := rxAt t2 B (rdt_total_packets B.length)
        (rdt_total_packets B.length - 2) } _ _
    hch (by simpa using hqR) rfl rfl rfl rfl
    (by
      simp only [rxAt, Option.getD_some]
      rw [markedBelow_getD (rdt_total_packets B.length)
        (rdt_total_packets B.length - 2 + 1) (rdt_total_packets B.length - 1)
        (by rw [hTeq]; omega)]
      simp only [decide_eq_false_iff_not]
      rw [hTeq]
      omega)
    (by
      simp only [rxAt]
      rw [hTeq]
      omega)]
  simp [rxAt, hrq, hroom,
    bufAt_full B (rdt_total_packets B.length - 2)
      (by rw [hTeq]; simp only [RDT_PACKET_PAYLOAD_LEN]; omega)]

/-- C1 witness: the 3-byte block `[1, 2, 3]` enqueued on channel 0 is
emitted by two sender ticks and reassembled, byte for byte, into the
receiver's rx queue. -/
theorem rdt_round_trip_witness :
    (rdt_deliver_list (fun _ _ _ _ => 0) 0 2
      ({ rdt_channel_default with
          rx_queue := some [], tx_queue := some [],
          rx_queue_length := 1, tx_queue_length := 1 }, ⟨0, 0⟩)
      ((rdt_process_tx_channel (fun _ _ _ _ => 0) 0 0
          { rdt_channel_default with
            rx_queue := some [], tx_queue := some [⟨[1, 2, 3], 3, none⟩],
            rx_queue_length := 1, tx_queue_length := 1, max_block_size := 512 }
          ⟨0, 0⟩).sent ++
       (rdt_process_tx_channel (fun _ _ _ _ => 0) 0 1
         (rdt_process_tx_channel (fun _ _ _ _ => 0) 0 0
           { rdt_channel_default with
             rx_queue := some [], tx_queue := some [⟨[1, 2, 3], 3, none⟩],
             rx_queue_length := 1, tx_queue_length := 1, max_block_size := 512 }
           ⟨0, 0⟩).ch
         (rdt_process_tx_channel (fun _ _ _ _ => 0) 0 0
           { rdt_channel_default with
             rx_queue := some [], tx_queue := some [⟨[1, 2, 3], 3, none⟩],
             rx_queue_length := 1, tx_queue_length := 1, max_block_size := 512 }
           ⟨0, 0⟩).stats).sent)).1.rx_queue
    = some [⟨[1, 2, 3], 3, none⟩] := by
  have h := rdt_round_trip (fun _ _ _ _ => 0) 0 0 1 2 [1, 2, 3]
    { rdt_channel_default with
      rx_queue := some [], tx_queue := some [⟨[1, 2, 3], 3, none⟩],
      rx_queue_length := 1, tx_queue_length := 1, max_block_size := 512 }
    { rdt_channel_default with
      rx_queue := some [], tx_queue := some [],
      rx_queue_length := 1, tx_queue_length := 1 }
    ⟨0, 0⟩ ⟨0, 0⟩ [] []
    (by decide) (by decide) rfl rfl (by decide) (by decide) (by decide)
    (by decide) (by decide) (by decide) rfl (by decide)
  simpa using h

-- MORE_THEOREMS_HERE

end WirelessEspnow
